import Mathlib

/-
Verification of the solar ephemeris core of the repository (sunset/sunrise
calculation engine).

The embedding models the C++ double-precision computations over the real
numbers: every arithmetic and transcendental operation of the source is
mirrored by the corresponding exact real operation.  The C++ while-loop
normalizations are modelled by their closed-form fixpoints (documented at
the definitions).  Output parameters written through pointers are modelled
by returning a record that carries the returned time together with the two
out-values.

Source functions embedded here (namespace sunset_calc, class
SunsetCalculator, file sunset_calc.cpp of the repository; and namespace
solar_utils of include/solar_utils.h):
  getJulianDate, getJ2000, getJulianCentury, meanLongitude, meanAnomaly,
  equationOfCenter, longitudeAscendingNode, nutationInLongitude,
  eccentricity, obliquityOfEcliptic, getZenith, hourAngle, getSunset,
  getSunrise, validateInputs, solar_utils::sunAngleToZenith,
  solar_utils::calcHourAngle.
-/

namespace SunsetCalc

noncomputable section

open Real

open scoped Classical

/-- Constant kDeg2Rad = kPi / 180.0 from constants.h. -/
def kDeg2Rad : ℝ := π / 180

/-- Constant kRad2Deg = 1.0 / kDeg2Rad from constants.h. -/
def kRad2Deg : ℝ := 1 / kDeg2Rad

/-- Constant kJ2000Epoch = 2451545.0 from constants.h. -/
def kJ2000Epoch : ℝ := 2451545

/-- Integer Julian-day computation inside SunsetCalculator::getJulianDate.
The C++ code computes with int arithmetic; all division operands are
nonnegative for the inputs reachable from the valid ranges, where C++
truncating division and the Lean integer division used here agree. -/
def jdInt (year month day : ℤ) : ℤ :=
  let a : ℤ := (14 - month) / 12
  let y : ℤ := year + 4800 - a
  let m : ℤ := month + 12 * a - 3
  day + (153 * m + 2) / 5 + 365 * y + y / 4 - y / 100 + y / 400 - 32045

/-- SunsetCalculator::getJulianDate: the int result is returned as double. -/
def getJulianDate (year month day : ℤ) : ℝ := (jdInt year month day : ℝ)

/-- SunsetCalculator::getJ2000. -/
def getJ2000 (jd : ℝ) : ℝ := jd - kJ2000Epoch

/-- SunsetCalculator::getJulianCentury. -/
def getJulianCentury (J2000 : ℝ) : ℝ := J2000 / 36525

/-- Algorithm selection enum from sunset_calc.h. -/
inductive Algorithm
  | NOAA
  | USNO
  | LASKAR

/-- Formulation selection enum for the longitude of the ascending node. -/
inductive LongitudeAscendingNodeFormulation
  | NOAA_LINEAR
  | REDA_ANDREAS_SPA

/-- Closed form of the degree-normalization loops appearing in
SunsetCalculator::meanLongitude:
  while (L0 > 360) L0 -= 360;  while (L0 < 0) L0 += 360;
For x > 360 the first loop runs the least n with x - 360n <= 360, namely
n = ceil((x-360)/360), landing in (0,360] (the second loop then idles);
for x < 0 only the second loop runs, the least n with 0 <= x + 360n being
n = ceil(-x/360), landing in [0,360); otherwise both loops idle.  Note the
strict comparison in the first loop: the value 360 itself is left as is. -/
def normDeg360 (x : ℝ) : ℝ :=
  if 360 < x then x - 360 * ⌈(x - 360) / 360⌉
  else if x < 0 then x + 360 * ⌈-x / 360⌉
  else x

/-- Closed form of the hour-normalization loops appearing in getSunset,
getSunrise and getSolarNoon:
  while (x >= 24.0) x -= 24.0;  while (x < 0.0) x += 24.0;
Because the first comparison is non-strict, the loops compute exactly the
representative of x modulo 24 in [0,24), i.e. x - 24*floor(x/24). -/
def norm24 (x : ℝ) : ℝ := x - 24 * ⌊x / 24⌋

/-- SunsetCalculator::meanLongitude (default algorithm NOAA). -/
def meanLongitude (t : ℝ) (algo : Algorithm := Algorithm.NOAA) : ℝ :=
  match algo with
  | Algorithm.USNO => normDeg360 (280.460 + 36000.771 * t)
  | Algorithm.LASKAR =>
      normDeg360 (280.4664567 + 36000.76982779 * t + 0.03032028 * t ^ 2 +
        t ^ 3 / 49931 - t ^ 4 / 15300 - t ^ 5 / 2e6)
  | Algorithm.NOAA => normDeg360 (280.46646 + t * (36000.76983 + t * 0.0003032))

/-- SunsetCalculator::meanAnomaly (default algorithm NOAA). -/
def meanAnomaly (t : ℝ) (algo : Algorithm := Algorithm.NOAA) : ℝ :=
  match algo with
  | Algorithm.USNO => 357.528 + 35999.050 * t
  | Algorithm.LASKAR => 357.52772 + 35999.050340 * t - 0.0001603 * t ^ 2 + t ^ 3 / 300000
  | Algorithm.NOAA => 357.52911 + t * (35999.05029 - t * 0.0001536)

/-- SunsetCalculator::equationOfCenter (default algorithm NOAA); the C++
parameter M is multiplied by kDeg2Rad on entry. -/
def equationOfCenter (t M : ℝ) (algo : Algorithm := Algorithm.NOAA) : ℝ :=
  let Mr := M * kDeg2Rad
  match algo with
  | Algorithm.USNO => 1.915 * sin Mr + 0.020 * sin (2 * Mr)
  | Algorithm.LASKAR =>
      (1.914602 - 0.004817 * t - 0.000014 * t ^ 2) * sin Mr +
        (0.019993 - 0.000101 * t) * sin (2 * Mr) + 0.000289 * sin (3 * Mr)
  | Algorithm.NOAA =>
      (1.914602 - 0.004817 * t - 0.000014 * t ^ 2) * sin Mr +
        (0.019993 - 0.000101 * t) * sin (2 * Mr) + 0.000289 * sin (3 * Mr)

/-- SunsetCalculator::longitudeAscendingNode (default REDA_ANDREAS_SPA);
returns radians. -/
def longitudeAscendingNode (t : ℝ)
    (form : LongitudeAscendingNodeFormulation :=
      LongitudeAscendingNodeFormulation.REDA_ANDREAS_SPA) : ℝ :=
  match form with
  | LongitudeAscendingNodeFormulation.NOAA_LINEAR => (125.04 - 1934.136 * t) * kDeg2Rad
  | LongitudeAscendingNodeFormulation.REDA_ANDREAS_SPA =>
      (125.04452 - 1934.136261 * t + 0.0020708 * t ^ 2 + t ^ 3 / 450000) * kDeg2Rad

/-- SunsetCalculator::nutationInLongitude; the C++ code multiplies its Omega
argument by kDeg2Rad on entry (even though the value passed by getSunset is
already in radians) and uses X1 directly as a radian argument. -/
def nutationInLongitude (Omega JCE X1 : ℝ) : ℝ :=
  let Or := Omega * kDeg2Rad
  let psi := -17.20 / 3600 * sin Or + -1.32 / 3600 * sin (2 * X1) +
    -0.23 / 3600 * sin (2 * Or) + 0.21 / 3600 * sin (2 * Or)
  psi

/-- SunsetCalculator::eccentricity. -/
def eccentricity (t : ℝ) : ℝ := 0.016708634 - t * (0.000042037 + t * 0.0000001267)

/-- SunsetCalculator::obliquityOfEcliptic (default algorithm NOAA). -/
def obliquityOfEcliptic (T : ℝ) (algo : Algorithm := Algorithm.NOAA) : ℝ :=
  let epsilon0 : ℝ := 23 + (26 + 21.448 / 60) / 60
  let U := T / 100
  match algo with
  | Algorithm.USNO => (epsilon0 * 3600 - 4680.93 * U) / 3600
  | Algorithm.LASKAR =>
      (epsilon0 * 3600 - 1.55 * U ^ 2 + 1999.25 * U ^ 3 - 51.38 * U ^ 4 -
        249.67 * U ^ 5 - 39.05 * U ^ 6 + 7.12 * U ^ 7 + 27.87 * U ^ 8 +
        5.79 * U ^ 9 + 2.45 * U ^ 10) / 3600
  | Algorithm.NOAA =>
      (epsilon0 * 3600 - 4681.5 * U - 5.9 * U ^ 2 + 1813 * U ^ 3) / 3600

/-- SunsetCalculator::getZenith: standard sunset elevation -0.833 degrees,
lowered by 2.076*sqrt(altitude)/60 further degrees when altitude_meters > 0;
returned as a zenith angle.  The e and nu parameters are unused in the
simplified C++ implementation. -/
def getZenith (e nu altitude_meters : ℝ) : ℝ :=
  let apparentSunsetElevation : ℝ := -0.833
  let corrected :=
    if 0 < altitude_meters then
      apparentSunsetElevation + -2.076 * Real.sqrt altitude_meters / 60
    else apparentSunsetElevation
  90 - corrected

/-- SunsetCalculator::hourAngle: computes cos H0 and clamps: a value above 1
returns 0.0 (comment: sun never rises), below -1 returns 180.0 (comment: sun
never sets), otherwise acos in degrees. -/
def hourAngle (h0 phi delta : ℝ) : ℝ :=
  let h0r := h0 * kDeg2Rad
  let phir := phi * kDeg2Rad
  let deltar := delta * kDeg2Rad
  let cos_H0 := (cos h0r - sin phir * sin deltar) / (cos phir * cos deltar)
  if 1 < cos_H0 then 0
  else if cos_H0 < -1 then 180
  else arccos cos_H0 * kRad2Deg

/-- solar_utils::calcHourAngle from include/solar_utils.h: same cosH formula,
but both out-of-domain cases return the single sentinel -1.0. -/
def calcHourAngle (zenithAngle latitude delta : ℝ) : ℝ :=
  let h0 := zenithAngle * kDeg2Rad
  let phi := latitude * kDeg2Rad
  let d := delta * kDeg2Rad
  let cosH := (cos h0 - sin phi * sin d) / (cos phi * cos d)
  if cosH < -1 ∨ 1 < cosH then -1
  else arccos cosH * kRad2Deg

/-- solar_utils::sunAngleToZenith from include/solar_utils.h. -/
def sunAngleToZenith (sunAngle : ℝ) : ℝ := 90 + sunAngle

/-- SunsetCalculator::validateInputs: mirrors the chain of early returns. -/
def validateInputs (year month day : ℤ) (latitude longitude : ℝ) (timezone : ℤ) : Prop :=
  ¬(year < 1900 ∨ 2100 < year) ∧
    ¬(month < 1 ∨ 12 < month) ∧
    ¬(day < 1 ∨ 31 < day) ∧
    ¬(latitude < -90 ∨ 90 < latitude) ∧
    ¬(longitude < -180 ∨ 180 < longitude) ∧
    ¬(timezone < -12 ∨ 14 < timezone)

/-- Result record modelling the return value of getSunset/getSunrise
together with the two pointer out-parameters (always written by the C++
code whenever the pointers are non-null). -/
structure SunResult where
  time : ℝ
  solarNoon : ℝ
  delta : ℝ

/-- SunsetCalculator::getSunset, modelling the full pipeline body.  On
validation failure the C++ code writes out_solarNoon = -1.0 and
out_delta = -999.0 and returns 24.0 before any astronomical computation. -/
def getSunset (year month day : ℤ) (latitude longitude : ℝ) (timezone : ℤ)
    (altitude_meters : ℝ) : SunResult :=
  if validateInputs year month day latitude longitude timezone then
    let jd := getJulianDate year month day
    let J2000 := getJ2000 jd
    let t := getJulianCentury J2000
    let L := meanLongitude t
    let M := meanAnomaly t
    let C := equationOfCenter t M
    let sun_lon := L + C
    let Omega := longitudeAscendingNode t
    let nut := nutationInLongitude Omega t L
    let lam := sun_lon + nut
    let e := eccentricity t
    let nu := M + C
    let zenith := getZenith nu C altitude_meters
    let epsilon := obliquityOfEcliptic t
    let delta := arcsin (sin (epsilon * kDeg2Rad) * sin (lam * kDeg2Rad)) * kRad2Deg
    let HA_deg := hourAngle zenith latitude delta
    let HA := HA_deg / 15
    let y := tan (epsilon * kDeg2Rad / 2) ^ 2
    let L_rad := L * kDeg2Rad
    let M_rad := M * kDeg2Rad
    let E_rad := y * sin (2 * L_rad) - 2 * e * sin M_rad +
      4 * e * y * sin M_rad * cos (2 * L_rad) -
      0.5 * y * y * sin (4 * L_rad) - 1.25 * e * e * sin (2 * M_rad)
    let eot := E_rad * kRad2Deg / 15
    let solar_noon_utc := 12 - longitude / 15 - eot
    let solar_noon := norm24 (solar_noon_utc + timezone)
    let sunset_time := norm24 (solar_noon + HA)
    ⟨sunset_time, solar_noon, delta⟩
  else ⟨24, -1, -999⟩

/-- SunsetCalculator::getSunrise: validates, obtains solar noon and delta
from getSunset, re-checks that noon is in range, then recomputes the
declination and hour angle through the same chain and subtracts. -/
def getSunrise (year month day : ℤ) (latitude longitude : ℝ) (timezone : ℤ)
    (altitude_meters : ℝ) : SunResult :=
  if validateInputs year month day latitude longitude timezone then
    let s := getSunset year month day latitude longitude timezone altitude_meters
    let solar_noon := s.solarNoon
    if solar_noon < 0 ∨ 24 ≤ solar_noon then ⟨-1, -1, -999⟩
    else
      let jd := getJulianDate year month day
      let J2000 := getJ2000 jd
      let t := getJulianCentury J2000
      let L := meanLongitude t
      let M := meanAnomaly t
      let C := equationOfCenter t M
      let sun_lon := L + C
      let Omega := longitudeAscendingNode t
      let nut := nutationInLongitude Omega t L
      let lam := sun_lon + nut
      let epsilon := obliquityOfEcliptic t
      let calculated_delta := arcsin (sin (epsilon * kDeg2Rad) * sin (lam * kDeg2Rad)) * kRad2Deg
      let zenith := getZenith (M + C) C altitude_meters
      let HA_deg := hourAngle zenith latitude calculated_delta
      let HA := HA_deg / 15
      let sunrise_time := norm24 (solar_noon - HA)
      ⟨sunrise_time, solar_noon, calculated_delta⟩
  else ⟨-1, -1, -999⟩

/-- The cosine of the hour angle as computed by both hour-angle solvers:
cosH = (cos z - sin phi sin delta) / (cos phi cos delta), inputs in degrees. -/
def cosHof (z phi delta : ℝ) : ℝ :=
  (cos (z * kDeg2Rad) - sin (phi * kDeg2Rad) * sin (delta * kDeg2Rad)) /
    (cos (phi * kDeg2Rad) * cos (delta * kDeg2Rad))

/-!  Named forms of the pipeline intermediates of getSunset/getSunrise
(steps 1-11 of the C++ body), used to state the claims; the bridge lemmas
below identify them with the let-chains of the two public entry points. -/

/-- Julian century of the query date: steps 1-3 of the pipeline. -/
def tCentury (year month day : ℤ) : ℝ :=
  getJulianCentury (getJ2000 (getJulianDate year month day))

/-- Apparent longitude lambda = L + C + nutation: steps 4-6. -/
def lambdaOf (t : ℝ) : ℝ :=
  meanLongitude t + equationOfCenter t (meanAnomaly t) +
    nutationInLongitude (longitudeAscendingNode t) t (meanLongitude t)

/-- Solar declination delta = asin(sin eps sin lambda) in degrees: step 9. -/
def deltaOf (t : ℝ) : ℝ :=
  arcsin (sin (obliquityOfEcliptic t * kDeg2Rad) * sin (lambdaOf t * kDeg2Rad)) * kRad2Deg

/-- Equation of time in hours as inlined in step 11 of getSunset
(Smart 1956 formula with the eccentricity of the query date). -/
def eotOf (t : ℝ) : ℝ :=
  let e := eccentricity t
  let y := tan (obliquityOfEcliptic t * kDeg2Rad / 2) ^ 2
  let L_rad := meanLongitude t * kDeg2Rad
  let M_rad := meanAnomaly t * kDeg2Rad
  let E_rad := y * sin (2 * L_rad) - 2 * e * sin M_rad +
    4 * e * y * sin M_rad * cos (2 * L_rad) -
    0.5 * y * y * sin (4 * L_rad) - 1.25 * e * e * sin (2 * M_rad)
  E_rad * kRad2Deg / 15

/-- Solar noon in local time, normalized to [0,24): step 11 of getSunset. -/
def solarNoonOf (t : ℝ) (longitude : ℝ) (timezone : ℤ) : ℝ :=
  norm24 (12 - longitude / 15 - eotOf t + timezone)

/-- Event hour angle in hours: steps 8 and 10 (zenith with altitude
correction, then the hour-angle solver, then conversion to hours). -/
def haHoursOf (t latitude altitude_meters : ℝ) : ℝ :=
  hourAngle
    (getZenith (meanAnomaly t + equationOfCenter t (meanAnomaly t))
      (equationOfCenter t (meanAnomaly t)) altitude_meters)
    latitude (deltaOf t) / 15

/-- The Smart (1956) equation-of-time formula in hours, exactly as written
in the specification: E_rad = y sin 2L - 2e sin M + 4ey sin M cos 2L
- 0.5 y^2 sin 4L - 1.25 e^2 sin 2M with y = tan^2(eps/2), L and M in
radians, converted to hours by (180/pi)/15. -/
def smartEquationOfTimeHours (L M e epsilon : ℝ) : ℝ :=
  let y := tan (epsilon * kDeg2Rad / 2) ^ 2
  let L_rad := L * kDeg2Rad
  let M_rad := M * kDeg2Rad
  (y * sin (2 * L_rad) - 2 * e * sin M_rad + 4 * e * y * sin M_rad * cos (2 * L_rad) -
      0.5 * y ^ 2 * sin (4 * L_rad) - 1.25 * e ^ 2 * sin (2 * M_rad)) * (180 / π) / 15

/-- The product appearing inside the declination arcsine at t = 0. -/
def p0 : ℝ := sin (obliquityOfEcliptic 0 * kDeg2Rad) * sin (lambdaOf 0 * kDeg2Rad)

/-- The cosine of the hour angle as computed inside the two pipelines at a
given Julian century, latitude and altitude (zenith from steps 7-8,
declination from step 9). -/
def cosHof_pipeline (t lat alt : ℝ) : ℝ :=
  cosHof
    (getZenith (meanAnomaly t + equationOfCenter t (meanAnomaly t))
      (equationOfCenter t (meanAnomaly t)) alt)
    lat (deltaOf t)

/-!  Basic facts about the hour-normalization closed form. -/

/-- The result of the [0,24) normalization loops is nonnegative. -/
theorem norm24_nonneg (x : ℝ) : 0 ≤ norm24 x := by
  have h := Int.sub_one_lt_floor (x / 24)
  have h2 : (⌊x / 24⌋ : ℝ) ≤ x / 24 := Int.floor_le _
  unfold norm24
  nlinarith

/-- The result of the [0,24) normalization loops is below 24. -/
theorem norm24_lt (x : ℝ) : norm24 x < 24 := by
  have h := Int.lt_floor_add_one (x / 24)
  unfold norm24
  nlinarith

/-- Inputs already in [0,24) are left unchanged by the normalization. -/
theorem norm24_eq_self {x : ℝ} (h0 : 0 ≤ x) (h1 : x < 24) : norm24 x = x := by
  have : ⌊x / 24⌋ = 0 := by
    rw [Int.floor_eq_zero_iff]
    constructor
    · positivity
    · rw [div_lt_one]
      · linarith
      · norm_num
  simp [norm24, this]

/-- Inputs in [24,48) come out reduced by exactly one period. -/
theorem norm24_eq_sub {x : ℝ} (h0 : 24 ≤ x) (h1 : x < 48) : norm24 x = x - 24 := by
  have hf : ⌊x / 24⌋ = 1 := by
    have h24 : (0:ℝ) < 24 := by norm_num
    rw [Int.floor_eq_iff]
    constructor
    · push_cast
      rw [le_div_iff₀ h24]
      linarith
    · push_cast
      rw [div_lt_iff₀ h24]
      linarith
  rw [norm24, hf]
  push_cast
  ring

/-- Inputs in [-24,0) come out shifted up by exactly one period. -/
theorem norm24_eq_add {x : ℝ} (h0 : -24 ≤ x) (h1 : x < 0) : norm24 x = x + 24 := by
  have hf : ⌊x / 24⌋ = -1 := by
    have h24 : (0:ℝ) < 24 := by norm_num
    rw [Int.floor_eq_iff]
    constructor
    · push_cast
      rw [le_div_iff₀ h24]
      linarith
    · push_cast
      rw [div_lt_iff₀ h24]
      linarith
  rw [norm24, hf]
  push_cast
  ring

/-!  Hour-angle solver: shared cosine expression and branch lemmas. -/

theorem kRad2Deg_eq : kRad2Deg = 180 / π := by
  unfold kRad2Deg kDeg2Rad
  rw [one_div, inv_div]

theorem hourAngle_eq (z phi delta : ℝ) :
    hourAngle z phi delta =
      if 1 < cosHof z phi delta then 0
      else if cosHof z phi delta < -1 then 180
      else arccos (cosHof z phi delta) * kRad2Deg := rfl

theorem calcHourAngle_eq (z phi delta : ℝ) :
    calcHourAngle z phi delta =
      if cosHof z phi delta < -1 ∨ 1 < cosHof z phi delta then -1
      else arccos (cosHof z phi delta) * kRad2Deg := rfl

theorem hourAngle_of_gt {z phi delta : ℝ} (h : 1 < cosHof z phi delta) :
    hourAngle z phi delta = 0 := by
  rw [hourAngle_eq, if_pos h]

theorem hourAngle_of_lt {z phi delta : ℝ} (h : cosHof z phi delta < -1) :
    hourAngle z phi delta = 180 := by
  rw [hourAngle_eq, if_neg (by linarith), if_pos h]

theorem hourAngle_of_mem {z phi delta : ℝ} (h1 : -1 ≤ cosHof z phi delta)
    (h2 : cosHof z phi delta ≤ 1) :
    hourAngle z phi delta = arccos (cosHof z phi delta) * kRad2Deg := by
  rw [hourAngle_eq, if_neg (by linarith), if_neg (by linarith)]

theorem calcHourAngle_of_out {z phi delta : ℝ}
    (h : cosHof z phi delta < -1 ∨ 1 < cosHof z phi delta) :
    calcHourAngle z phi delta = -1 := by
  rw [calcHourAngle_eq, if_pos h]

theorem calcHourAngle_of_mem {z phi delta : ℝ} (h1 : -1 ≤ cosHof z phi delta)
    (h2 : cosHof z phi delta ≤ 1) :
    calcHourAngle z phi delta = arccos (cosHof z phi delta) * kRad2Deg := by
  rw [calcHourAngle_eq, if_neg (by push_neg; exact ⟨h1, h2⟩)]

/-- At zenith 0, latitude 45, declination 60 the cosine expression exceeds 1
(the sun never reaches the zenith-0 circle): cosH = (4 - sqrt 6)/sqrt 2 > 1. -/
theorem cosHof_zero_45_60 : 1 < cosHof 0 45 60 := by
  have h45 : (45:ℝ) * kDeg2Rad = π / 4 := by
    unfold kDeg2Rad
    ring
  have h60 : (60:ℝ) * kDeg2Rad = π / 3 := by
    unfold kDeg2Rad
    ring
  have h0 : (0:ℝ) * kDeg2Rad = 0 := by ring
  unfold cosHof
  rw [h45, h60, h0, Real.cos_zero, Real.sin_pi_div_four, Real.sin_pi_div_three,
    Real.cos_pi_div_four, Real.cos_pi_div_three]
  rw [lt_div_iff₀ (by positivity)]
  have h2 : Real.sqrt 2 ≤ 1.415 := by
    nlinarith [Real.sq_sqrt (show (0:ℝ) ≤ 2 by norm_num), Real.sqrt_nonneg 2]
  have h6 : Real.sqrt 6 ≤ 2.4495 := by
    nlinarith [Real.sq_sqrt (show (0:ℝ) ≤ 6 by norm_num), Real.sqrt_nonneg 6]
  have h2' : (0:ℝ) ≤ Real.sqrt 2 := Real.sqrt_nonneg 2
  have h6' : (0:ℝ) ≤ Real.sqrt 6 := Real.sqrt_nonneg 6
  have hm : Real.sqrt 2 * Real.sqrt 3 = Real.sqrt 6 := by
    rw [← Real.sqrt_mul (by norm_num)]
    norm_num
  nlinarith [Real.sqrt_nonneg 3]

/-- At zenith 180 (same latitude/declination) the cosine expression is below
-1: cosH = -(4 + sqrt 6)/sqrt 2 < -1. -/
theorem cosHof_180_45_60 : cosHof 180 45 60 < -1 := by
  have h45 : (45:ℝ) * kDeg2Rad = π / 4 := by
    unfold kDeg2Rad
    ring
  have h60 : (60:ℝ) * kDeg2Rad = π / 3 := by
    unfold kDeg2Rad
    ring
  have h180 : (180:ℝ) * kDeg2Rad = π := by
    unfold kDeg2Rad
    ring
  unfold cosHof
  rw [h45, h60, h180, Real.cos_pi, Real.sin_pi_div_four, Real.sin_pi_div_three,
    Real.cos_pi_div_four, Real.cos_pi_div_three]
  rw [div_lt_iff₀ (by positivity)]
  have h2' : (0:ℝ) ≤ Real.sqrt 2 := Real.sqrt_nonneg 2
  have h2 : Real.sqrt 2 ≤ 2 := by
    nlinarith [Real.sq_sqrt (show (0:ℝ) ≤ 2 by norm_num), Real.sqrt_nonneg 2]
  have hm : Real.sqrt 2 * Real.sqrt 3 = Real.sqrt 6 := by
    rw [← Real.sqrt_mul (by norm_num)]
    norm_num
  nlinarith [Real.sqrt_nonneg 3, Real.sqrt_nonneg 6]

/-- Claim C2, counterexample: SunsetCalculator::hourAngle does not use one
shared sentinel for the two out-of-domain cases: with latitude 45 and
declination 60, the cosH > 1 case (zenith 0) returns 0.0 while the
cosH < -1 case (zenith 180) returns 180.0 — two different, in-range values,
so the two non-occurrence cases are distinguishable and are not reported
through a common occurs=false sentinel. -/
theorem C2_counterexample :
    hourAngle 0 45 60 = 0 ∧ hourAngle 180 45 60 = 180 ∧
      hourAngle 0 45 60 ≠ hourAngle 180 45 60 := by
  have ha := hourAngle_of_gt cosHof_zero_45_60
  have hb := hourAngle_of_lt cosHof_180_45_60
  refine ⟨ha, hb, ?_⟩
  rw [ha, hb]
  norm_num

/-- Claim C2, amended: both solvers compute
cosH = (cos z - sin phi sin delta)/(cos phi cos delta); solar_utils::
calcHourAngle reports both out-of-domain cases through the single sentinel
-1.0, while SunsetCalculator::hourAngle instead returns the clamped in-range
values 0.0 (cosH > 1) and 180.0 (cosH < -1); in the domain both return
acos(cosH)*180/pi, which lies in [0,180]; all cases yield a plain real
result (never an exception and never an undefined value). -/
theorem C2_main : ∀ z phi delta : ℝ,
    (1 < cosHof z phi delta →
      hourAngle z phi delta = 0 ∧ calcHourAngle z phi delta = -1) ∧
    (cosHof z phi delta < -1 →
      hourAngle z phi delta = 180 ∧ calcHourAngle z phi delta = -1) ∧
    (-1 ≤ cosHof z phi delta → cosHof z phi delta ≤ 1 →
      hourAngle z phi delta = arccos (cosHof z phi delta) * (180 / π) ∧
      calcHourAngle z phi delta = hourAngle z phi delta ∧
      0 ≤ hourAngle z phi delta ∧ hourAngle z phi delta ≤ 180) := by
  intro z phi delta
  refine ⟨fun h => ⟨hourAngle_of_gt h, calcHourAngle_of_out (Or.inr h)⟩,
    fun h => ⟨hourAngle_of_lt h, calcHourAngle_of_out (Or.inl h)⟩,
    fun h1 h2 => ?_⟩
  have he := hourAngle_of_mem h1 h2
  have hc := calcHourAngle_of_mem h1 h2
  rw [kRad2Deg_eq] at he hc
  refine ⟨he, by rw [he, hc], ?_, ?_⟩
  · rw [he]
    have := Real.arccos_nonneg (cosHof z phi delta)
    have hpi : 0 < π := Real.pi_pos
    positivity
  · rw [he]
    have h3 := Real.arccos_le_pi (cosHof z phi delta)
    have hpi : 0 < π := Real.pi_pos
    calc arccos (cosHof z phi delta) * (180 / π) ≤ π * (180 / π) := by
          apply mul_le_mul_of_nonneg_right h3
          positivity
      _ = 180 := by
          field_simp

/-- Claim C2, witness: concrete instantiations of the three cases: at
(zenith 90, latitude 0, declination 0) cosH = 0 and both solvers return
90 degrees; at (0,45,60) the cosH > 1 case gives 0.0 and -1.0; at
(180,45,60) the cosH < -1 case gives 180.0 and -1.0. -/
theorem C2_witness :
    hourAngle 90 0 0 = 90 ∧ calcHourAngle 90 0 0 = 90 ∧
      hourAngle 0 45 60 = 0 ∧ calcHourAngle 0 45 60 = -1 ∧
      hourAngle 180 45 60 = 180 ∧ calcHourAngle 180 45 60 = -1 := by
  have hcos : cosHof 90 0 0 = 0 := by
    have h90 : (90:ℝ) * kDeg2Rad = π / 2 := by
      unfold kDeg2Rad
      ring
    have h0 : (0:ℝ) * kDeg2Rad = 0 := by ring
    unfold cosHof
    rw [h90, h0, Real.cos_pi_div_two, Real.sin_zero, Real.cos_zero]
    norm_num
  have hmem := (C2_main 90 0 0).2.2 (by rw [hcos]; norm_num) (by rw [hcos]; norm_num)
  have hgt := C2_main 0 45 60
  have hlt := C2_main 180 45 60
  obtain ⟨hg1, hg2⟩ := hgt.1 cosHof_zero_45_60
  obtain ⟨hl1, hl2⟩ := hlt.2.1 cosHof_180_45_60
  refine ⟨?_, ?_, hg1, hg2, hl1, hl2⟩
  · rw [hmem.1, hcos, Real.arccos_zero]
    field_simp
    ring
  · rw [hmem.2.1, hmem.1, hcos, Real.arccos_zero]
    field_simp
    ring

/-- Claim C1, counterexample: taking the sun angle s = 18 below the horizon
(the astronomical-twilight catalog entry), solar_utils::sunAngleToZenith
returns 108, not the 72 = 90 - 18 degrees asserted by the claim. -/
theorem C1_counterexample : sunAngleToZenith 18 = 108 ∧ sunAngleToZenith 18 ≠ 90 - 18 := by
  constructor
  · norm_num [sunAngleToZenith]
  · norm_num [sunAngleToZenith]

/-- Claim C1, amended: under the EventSpec sign convention (negative = above
horizon, positive = below) the base zenith is 90 plus the signed sun angle;
equivalently, for a sun altitude a above the horizon (sun angle s = -a) the
zenith is 90 - a.  The formula 90 - s of the original claim holds only in
the altitude variable, not in the signed sun-angle variable. -/
theorem C1_main : ∀ s a : ℝ, sunAngleToZenith s = 90 + s ∧ sunAngleToZenith (-a) = 90 - a := by
  intro s a
  constructor
  · simp [sunAngleToZenith]
  · simp [sunAngleToZenith]
    ring

/-- Claim C4: validateInputs accepts exactly the documented ranges
(year 1900-2100, month 1-12, day 1-31 with no month-length check,
latitude in [-90,90], longitude in [-180,180], timezone in [-12,14]),
including all the boundary acceptances and rejections listed in the spec. -/
theorem C4_main :
    (∀ (year month day : ℤ) (lat lon : ℝ) (tz : ℤ),
      validateInputs year month day lat lon tz ↔
        (1900 ≤ year ∧ year ≤ 2100 ∧ 1 ≤ month ∧ month ≤ 12 ∧ 1 ≤ day ∧ day ≤ 31 ∧
          -90 ≤ lat ∧ lat ≤ 90 ∧ -180 ≤ lon ∧ lon ≤ 180 ∧ -12 ≤ tz ∧ tz ≤ 14)) ∧
    ¬validateInputs 1899 6 15 0 0 0 ∧
    ¬validateInputs 2000 13 15 0 0 0 ∧
    ¬validateInputs 2000 6 32 0 0 0 ∧
    ¬validateInputs 2000 6 15 91 0 0 ∧
    ¬validateInputs 2000 6 15 0 181 0 ∧
    ¬validateInputs 2000 6 15 0 0 15 ∧
    validateInputs 2000 2 30 0 0 0 ∧
    validateInputs 1900 6 15 0 0 0 ∧
    validateInputs 2100 6 15 0 0 0 ∧
    validateInputs 2000 6 15 90 0 0 ∧
    validateInputs 2000 6 15 (-90) 0 0 ∧
    validateInputs 2000 6 15 0 180 0 ∧
    validateInputs 2000 6 15 0 (-180) 0 ∧
    validateInputs 2000 6 15 0 0 (-12) ∧
    validateInputs 2000 6 15 0 0 14 := by
  refine ⟨?_, ?_, ?_, ?_, ?_, ?_, ?_, ?_, ?_, ?_, ?_, ?_, ?_, ?_, ?_, ?_⟩
  · intro year month day lat lon tz
    unfold validateInputs
    push_neg
    constructor
    · rintro ⟨⟨a1, a2⟩, ⟨b1, b2⟩, ⟨c1, c2⟩, ⟨d1, d2⟩, ⟨e1, e2⟩, ⟨f1, f2⟩⟩
      exact ⟨a1, a2, b1, b2, c1, c2, d1, d2, e1, e2, f1, f2⟩
    · rintro ⟨a1, a2, b1, b2, c1, c2, d1, d2, e1, e2, f1, f2⟩
      exact ⟨⟨a1, a2⟩, ⟨b1, b2⟩, ⟨c1, c2⟩, ⟨d1, d2⟩, ⟨e1, e2⟩, ⟨f1, f2⟩⟩
  all_goals unfold validateInputs
  all_goals push_neg
  all_goals norm_num

/-- Claim C4, witness: the characterization applied at the accepted
boundary date 1900-06-15 at the origin. -/
theorem C4_witness : validateInputs 1900 6 15 0 0 0 :=
  (C4_main.1 1900 6 15 0 0 0).mpr (by norm_num)

/-- On valid inputs getSunset computes noon + hour angle, renormalized,
and reports the solar noon and declination of the pipeline. -/
theorem getSunset_of_valid {year month day : ℤ} {lat lon : ℝ} {tz : ℤ} (alt : ℝ)
    (h : validateInputs year month day lat lon tz) :
    getSunset year month day lat lon tz alt =
      ⟨norm24 (solarNoonOf (tCentury year month day) lon tz +
          haHoursOf (tCentury year month day) lat alt),
        solarNoonOf (tCentury year month day) lon tz,
        deltaOf (tCentury year month day)⟩ := by
  rw [getSunset, if_pos h]
  rfl

/-- On invalid inputs getSunset returns the 24.0 sentinel and writes the
sentinel out-values, with no astronomical computation. -/
theorem getSunset_of_invalid {year month day : ℤ} {lat lon : ℝ} {tz : ℤ} (alt : ℝ)
    (h : ¬validateInputs year month day lat lon tz) :
    getSunset year month day lat lon tz alt = ⟨24, -1, -999⟩ := by
  rw [getSunset, if_neg h]

/-- On valid inputs getSunrise passes its internal safety check (the noon
obtained from getSunset is normalized) and computes noon minus hour angle. -/
theorem getSunrise_of_valid {year month day : ℤ} {lat lon : ℝ} {tz : ℤ} (alt : ℝ)
    (h : validateInputs year month day lat lon tz) :
    getSunrise year month day lat lon tz alt =
      ⟨norm24 (solarNoonOf (tCentury year month day) lon tz -
          haHoursOf (tCentury year month day) lat alt),
        solarNoonOf (tCentury year month day) lon tz,
        deltaOf (tCentury year month day)⟩ := by
  rw [getSunrise, if_pos h, getSunset_of_valid alt h]
  have h0 : ¬(solarNoonOf (tCentury year month day) lon tz < 0 ∨
      24 ≤ solarNoonOf (tCentury year month day) lon tz) := by
    push_neg
    exact ⟨norm24_nonneg _, norm24_lt _⟩
  rw [if_neg h0]
  rfl

/-- On invalid inputs getSunrise returns the -1.0 sentinel. -/
theorem getSunrise_of_invalid {year month day : ℤ} {lat lon : ℝ} {tz : ℤ} (alt : ℝ)
    (h : ¬validateInputs year month day lat lon tz) :
    getSunrise year month day lat lon tz alt = ⟨-1, -1, -999⟩ := by
  rw [getSunrise, if_neg h]

/-- Claim C3: on every input rejected by validation, getSunset returns
exactly 24.0 and getSunrise exactly -1.0 (the check is the first statement
of both bodies, before any astronomical computation); on every accepted
input both entry points return a time in [0,24). -/
theorem C3_main : ∀ (year month day : ℤ) (lat lon : ℝ) (tz : ℤ) (alt : ℝ),
    (¬validateInputs year month day lat lon tz →
      (getSunset year month day lat lon tz alt).time = 24 ∧
        (getSunrise year month day lat lon tz alt).time = -1) ∧
    (validateInputs year month day lat lon tz →
      0 ≤ (getSunset year month day lat lon tz alt).time ∧
        (getSunset year month day lat lon tz alt).time < 24 ∧
        0 ≤ (getSunrise year month day lat lon tz alt).time ∧
        (getSunrise year month day lat lon tz alt).time < 24) := by
  intro year month day lat lon tz alt
  constructor
  · intro h
    rw [getSunset_of_invalid alt h, getSunrise_of_invalid alt h]
    exact ⟨rfl, rfl⟩
  · intro h
    rw [getSunset_of_valid alt h, getSunrise_of_valid alt h]
    exact ⟨norm24_nonneg _, norm24_lt _, norm24_nonneg _, norm24_lt _⟩

/-- Claim C3, witness: the failure branch at the rejected year 1899 and the
success branch at 2000-06-15 on the equator. -/
theorem C3_witness :
    (getSunset 1899 6 15 0 0 0 0).time = 24 ∧
      (getSunrise 1899 6 15 0 0 0 0).time = -1 ∧
      0 ≤ (getSunset 2000 6 15 0 0 0 0).time ∧
      (getSunset 2000 6 15 0 0 0 0).time < 24 ∧
      0 ≤ (getSunrise 2000 6 15 0 0 0 0).time ∧
      (getSunrise 2000 6 15 0 0 0 0).time < 24 := by
  have hbad : ¬validateInputs 1899 6 15 0 0 0 := by
    unfold validateInputs
    push_neg
    intro hcon
    omega
  have hok : validateInputs 2000 6 15 0 0 0 := by
    unfold validateInputs
    push_neg
    norm_num
  obtain ⟨h1, h2⟩ := (C3_main 1899 6 15 0 0 0 0).1 hbad
  obtain ⟨h3, h4, h5, h6⟩ := (C3_main 2000 6 15 0 0 0 0).2 hok
  exact ⟨h1, h2, h3, h4, h5, h6⟩

/-- Claim C10: on every valid input the (solarNoon, delta) pair written by
getSunrise coincides with the pair written by getSunset for the same
arguments: the noon is forwarded from the internal getSunset call and the
declination is re-derived through the identical chain. -/
theorem C10_main : ∀ (year month day : ℤ) (lat lon : ℝ) (tz : ℤ) (alt : ℝ),
    validateInputs year month day lat lon tz →
      (getSunrise year month day lat lon tz alt).solarNoon =
        (getSunset year month day lat lon tz alt).solarNoon ∧
      (getSunrise year month day lat lon tz alt).delta =
        (getSunset year month day lat lon tz alt).delta := by
  intro year month day lat lon tz alt h
  rw [getSunset_of_valid alt h, getSunrise_of_valid alt h]
  exact ⟨rfl, rfl⟩

/-- Claim C10, witness: the shared intermediate pair at 2000-06-15, equator,
zero longitude, UTC, sea level. -/
theorem C10_witness :
    (getSunrise 2000 6 15 0 0 0 0).solarNoon = (getSunset 2000 6 15 0 0 0 0).solarNoon ∧
      (getSunrise 2000 6 15 0 0 0 0).delta = (getSunset 2000 6 15 0 0 0 0).delta := by
  apply C10_main
  unfold validateInputs
  push_neg
  norm_num

/-- The inlined equation of time of getSunset step 11 is exactly the Smart
formula evaluated at the mean longitude, mean anomaly, eccentricity and
obliquity of the query date. -/
theorem eotOf_eq_smart (t : ℝ) :
    eotOf t = smartEquationOfTimeHours (meanLongitude t) (meanAnomaly t)
      (eccentricity t) (obliquityOfEcliptic t) := by
  unfold eotOf smartEquationOfTimeHours
  rw [kRad2Deg_eq]
  ring

/-- Claim C7: on every valid input the solar noon written by the pipeline is
12 - longitude/15 - E + timezone normalized into [0,24), with E the Smart
(1956) equation of time in hours computed from the mean longitude, mean
anomaly, eccentricity and obliquity of the query date. -/
theorem C7_main : ∀ (year month day : ℤ) (lat lon : ℝ) (tz : ℤ) (alt : ℝ),
    validateInputs year month day lat lon tz →
      (getSunset year month day lat lon tz alt).solarNoon =
        norm24 (12 - lon / 15 -
          smartEquationOfTimeHours (meanLongitude (tCentury year month day))
            (meanAnomaly (tCentury year month day))
            (eccentricity (tCentury year month day))
            (obliquityOfEcliptic (tCentury year month day)) + tz) := by
  intro year month day lat lon tz alt h
  rw [getSunset_of_valid alt h]
  show solarNoonOf (tCentury year month day) lon tz = _
  rw [solarNoonOf, eotOf_eq_smart]

/-- Claim C7, witness: the representation at 2000-06-15, longitude -90,
timezone -6, sea level. -/
theorem C7_witness :
    (getSunset 2000 6 15 0 (-90) (-6) 0).solarNoon =
      norm24 (12 - (-90 : ℝ) / 15 -
        smartEquationOfTimeHours (meanLongitude (tCentury 2000 6 15))
          (meanAnomaly (tCentury 2000 6 15))
          (eccentricity (tCentury 2000 6 15))
          (obliquityOfEcliptic (tCentury 2000 6 15)) + ((-6 : ℤ) : ℝ)) := by
  exact C7_main 2000 6 15 0 (-90) (-6) 0 (by unfold validateInputs; push_neg; norm_num)

/-!  Range facts for the degree normalization and claim C8.  The loops
land in [0,360], and the right endpoint 360 is hit exactly when the input
is an integer multiple of 360 not below 360 (the loop guard is strict). -/

theorem normDeg360_nonneg (x : ℝ) : 0 ≤ normDeg360 x := by
  unfold normDeg360
  split_ifs with h1 h2
  · have hc := Int.ceil_lt_add_one ((x - 360) / 360)
    nlinarith
  · have hc := Int.le_ceil (-x / 360)
    nlinarith
  · linarith

theorem normDeg360_le (x : ℝ) : normDeg360 x ≤ 360 := by
  unfold normDeg360
  split_ifs with h1 h2
  · have hc := Int.le_ceil ((x - 360) / 360)
    nlinarith
  · have hc := Int.ceil_lt_add_one (-x / 360)
    nlinarith
  · linarith

theorem normDeg360_eq_end (x : ℝ) (h : normDeg360 x = 360) : ∃ n : ℤ, x = 360 * n := by
  unfold normDeg360 at h
  split_ifs at h with h1 h2
  · exact ⟨⌈(x - 360) / 360⌉ + 1, by push_cast; linarith⟩
  · exfalso
    have hc := Int.ceil_lt_add_one (-x / 360)
    nlinarith
  · exact ⟨1, by rw [h]; norm_num⟩

/-- Julian century in terms of the integer day offset from the J2000 epoch. -/
theorem tCentury_eq (year month day : ℤ) :
    tCentury year month day = ((jdInt year month day - 2451545 : ℤ) : ℝ) / 36525 := by
  unfold tCentury getJulianCentury getJ2000 getJulianDate kJ2000Epoch
  push_cast
  ring

/-- Any date in the validated ranges stays within 37000 days of J2000. -/
theorem jdInt_def (year month day : ℤ) :
    jdInt year month day =
      day + (153 * (month + 12 * ((14 - month) / 12) - 3) + 2) / 5 +
        365 * (year + 4800 - (14 - month) / 12) + (year + 4800 - (14 - month) / 12) / 4 -
        (year + 4800 - (14 - month) / 12) / 100 +
        (year + 4800 - (14 - month) / 12) / 400 - 32045 := rfl

theorem jdInt_bounds {year month day : ℤ} (h1 : 1900 ≤ year) (h2 : year ≤ 2100)
    (h3 : 1 ≤ month) (h4 : month ≤ 12) (h5 : 1 ≤ day) (h6 : day ≤ 31) :
    -37000 ≤ jdInt year month day - 2451545 ∧ jdInt year month day - 2451545 ≤ 37000 := by
  rw [jdInt_def]
  constructor <;> omega

/-- The NOAA mean-longitude polynomial never takes the exact value of an
integer multiple of 360 degrees at a rational Julian century k/36525:
multiplying out, 5-adic descent leads to 4 + 2*k^2 = 0 over ZMod 5, which
has no solution. -/
theorem noaa_ne_mult (k n : ℤ) :
    280.46646 + ((k : ℝ) / 36525) * (36000.76983 + ((k : ℝ) / 36525) * 0.0003032) ≠
      360 * (n : ℝ) := by
  intro h
  have hz : (2804664600 * 36525 ^ 2 + 360007698300 * 36525 * k + 3032 * k ^ 2 : ℤ) =
      3600000000 * 36525 ^ 2 * n := by
    have h2 : (2804664600 * 36525 ^ 2 : ℝ) + 360007698300 * 36525 * k + 3032 * k ^ 2 =
        3600000000 * 36525 ^ 2 * n := by
      linear_combination (10 ^ 7 * 36525 ^ 2 : ℝ) * h
    exact_mod_cast h2
  have hp5 : Prime (5 : ℤ) := by norm_num
  have hd1 : (5 : ℤ) ∣ k := by
    have h5 : (5 : ℤ) ∣ 3032 * k ^ 2 :=
      ⟨720000000 * 36525 ^ 2 * n - 560932920 * 36525 ^ 2 - 72001539660 * 36525 * k, by
        linear_combination hz⟩
    rcases hp5.dvd_mul.mp h5 with h' | h'
    · norm_num at h'
    · exact hp5.dvd_of_dvd_pow h'
  obtain ⟨k1, rfl⟩ := hd1
  have hz1 : (2804664600 * 1461 * 36525 + 72001539660 * 36525 * k1 + 3032 * k1 ^ 2 : ℤ) =
      144000000 * 36525 ^ 2 * n := by
    have e25 : (25 : ℤ) * (2804664600 * 1461 * 36525 + 72001539660 * 36525 * k1 +
        3032 * k1 ^ 2 - 144000000 * 36525 ^ 2 * n) = 25 * 0 := by
      linear_combination hz
    have := mul_left_cancel₀ (by norm_num : (25 : ℤ) ≠ 0) e25
    linarith
  have hd2 : (5 : ℤ) ∣ k1 := by
    have h5 : (5 : ℤ) ∣ 3032 * k1 ^ 2 :=
      ⟨28800000 * 36525 ^ 2 * n - 560932920 * 1461 * 36525 - 14400307932 * 36525 * k1, by
        linear_combination hz1⟩
    rcases hp5.dvd_mul.mp h5 with h' | h'
    · norm_num at h'
    · exact hp5.dvd_of_dvd_pow h'
  obtain ⟨k2, rfl⟩ := hd2
  have hz2 : (2804664600 * 1461 * 1461 + 72001539660 * 7305 * k2 + 3032 * k2 ^ 2 : ℤ) =
      144000000 * 1461 * 36525 * n := by
    have e25 : (25 : ℤ) * (2804664600 * 1461 * 1461 + 72001539660 * 7305 * k2 +
        3032 * k2 ^ 2 - 144000000 * 1461 * 36525 * n) = 25 * 0 := by
      linear_combination hz1
    have := mul_left_cancel₀ (by norm_num : (25 : ℤ) ≠ 0) e25
    linarith
  have hd3 : (5 : ℤ) ∣ k2 := by
    have h5 : (5 : ℤ) ∣ 3032 * k2 ^ 2 :=
      ⟨28800000 * 1461 * 36525 * n - 560932920 * 1461 * 1461 - 14400307932 * 7305 * k2, by
        linear_combination hz2⟩
    rcases hp5.dvd_mul.mp h5 with h' | h'
    · norm_num at h'
    · exact hp5.dvd_of_dvd_pow h'
  obtain ⟨k3, rfl⟩ := hd3
  have hz3 : (112186584 * 1461 * 1461 + 72001539660 * 1461 * k3 + 3032 * k3 ^ 2 : ℤ) =
      144000000 * 1461 * 1461 * n := by
    have e25 : (25 : ℤ) * (112186584 * 1461 * 1461 + 72001539660 * 1461 * k3 +
        3032 * k3 ^ 2 - 144000000 * 1461 * 1461 * n) = 25 * 0 := by
      linear_combination hz2
    have := mul_left_cancel₀ (by norm_num : (25 : ℤ) ≠ 0) e25
    linarith
  have hmod : ((112186584 * 1461 * 1461 + 72001539660 * 1461 * k3 + 3032 * k3 ^ 2 : ℤ) :
      ZMod 5) = ((144000000 * 1461 * 1461 * n : ℤ) : ZMod 5) := by
    exact_mod_cast congrArg (fun z : ℤ => (z : ZMod 5)) hz3
  push_cast at hmod
  revert hmod
  generalize (k3 : ZMod 5) = a
  generalize (n : ZMod 5) = b
  revert a b
  decide

/-- The USNO mean-longitude line never hits an integer multiple of 360 at
any k/36525 with k within 37000 days of J2000 (linear diophantine check). -/
theorem usno_ne_mult (k n : ℤ) (hk1 : -37000 ≤ k) (hk2 : k ≤ 37000) :
    280.460 + 36000.771 * ((k : ℝ) / 36525) ≠ 360 * (n : ℝ) := by
  intro h
  have hz : (280460 * 36525 + 36000771 * k : ℤ) = 13149000000 * n := by
    have h2 : (280460 * 36525 : ℝ) + 36000771 * k = 13149000000 * n := by
      linear_combination (1000 * 36525 : ℝ) * h
    exact_mod_cast h2
  omega

set_option maxHeartbeats 1000000 in
/-- The Laskar mean-longitude polynomial never hits an integer multiple of
360 at k/36525 with k within 37000 days of J2000: the prime 487 divides
36525 and forces 487 to divide k, the prime 1019 divides 49931 and forces
1019 to divide k, so k = 0 in range, where the constant term is not a
multiple of 360. -/
theorem laskar_ne_mult (k n : ℤ) (hk1 : -37000 ≤ k) (hk2 : k ≤ 37000) :
    280.4664567 + 36000.76982779 * ((k : ℝ) / 36525) +
        0.03032028 * ((k : ℝ) / 36525) ^ 2 + ((k : ℝ) / 36525) ^ 3 / 49931 -
        ((k : ℝ) / 36525) ^ 4 / 15300 - ((k : ℝ) / 36525) ^ 5 / 2e6 ≠
      360 * (n : ℝ) := by
  intro h
  have hz : (2804664567 * 10 * 153 * 49931 * 36525 ^ 5 +
      3600076982779 * 153 * 49931 * 36525 ^ 4 * k +
      3032028 * 153 * 49931 * 36525 ^ 3 * k ^ 2 +
      100000000 * 153 * 36525 ^ 2 * k ^ 3 -
      1000000 * 49931 * 36525 * k ^ 4 -
      7650 * 49931 * k ^ 5 : ℤ) =
      360 * 100000000 * 153 * 49931 * 36525 ^ 5 * n := by
    have h2 : (2804664567 * 10 * 153 * 49931 * 36525 ^ 5 : ℝ) +
        3600076982779 * 153 * 49931 * 36525 ^ 4 * k +
        3032028 * 153 * 49931 * 36525 ^ 3 * k ^ 2 +
        100000000 * 153 * 36525 ^ 2 * k ^ 3 -
        1000000 * 49931 * 36525 * k ^ 4 -
        7650 * 49931 * k ^ 5 =
        360 * 100000000 * 153 * 49931 * 36525 ^ 5 * n := by
      linear_combination (100000000 * 153 * 49931 * 36525 ^ 5 : ℝ) * h
    exact_mod_cast h2
  have hp487 : Prime (487 : ℤ) := by norm_num
  have hp1019 : Prime (1019 : ℤ) := by norm_num
  have hd487 : (487 : ℤ) ∣ k := by
    have hdvd : (487 : ℤ) ∣ 381972150 * k ^ 5 :=
      ⟨2804664567 * 10 * 153 * 49931 * 75 * 36525 ^ 4 +
        3600076982779 * 153 * 49931 * 75 * 36525 ^ 3 * k +
        3032028 * 153 * 49931 * 75 * 36525 ^ 2 * k ^ 2 +
        100000000 * 153 * 75 * 36525 * k ^ 3 -
        1000000 * 49931 * 75 * k ^ 4 -
        360 * 100000000 * 153 * 49931 * 75 * 36525 ^ 4 * n, by linear_combination -hz⟩
    rcases hp487.dvd_mul.mp hdvd with h' | h'
    · norm_num at h'
    · exact hp487.dvd_of_dvd_pow h'
  have hd1019 : (1019 : ℤ) ∣ k := by
    have hdvd : (1019 : ℤ) ∣ 15300000000 * 36525 ^ 2 * k ^ 3 :=
      ⟨360 * 100000000 * 153 * 49 * 36525 ^ 5 * n -
        2804664567 * 10 * 153 * 49 * 36525 ^ 5 -
        3600076982779 * 153 * 49 * 36525 ^ 4 * k -
        3032028 * 153 * 49 * 36525 ^ 3 * k ^ 2 +
        1000000 * 49 * 36525 * k ^ 4 +
        7650 * 49 * k ^ 5, by linear_combination hz⟩
    rcases hp1019.dvd_mul.mp hdvd with h' | h'
    · exfalso
      rcases hp1019.dvd_mul.mp h' with h'' | h''
      · norm_num at h''
      · have := hp1019.dvd_of_dvd_pow h''
        norm_num at this
    · exact hp1019.dvd_of_dvd_pow h'
  have hk0 : k = 0 := by
    clear h hz hp487 hp1019
    omega
  subst hk0
  simp only [mul_zero, zero_pow, add_zero, sub_zero] at hz
  norm_num at hz
  omega

/-- Claim C8: for every Julian-century value reachable from a date in the
validated ranges (year 1900-2100, month 1-12, day 1-31) and for each of the
three algorithm variants, meanLongitude returns a value in [0,360).  The
normalization loops land in [0,360]; the endpoint 360 would require the
polynomial to hit an exact integer multiple of 360 at k/36525, which the
three diophantine lemmas above exclude for all reachable k. -/
theorem C8_main : ∀ (year month day : ℤ), 1900 ≤ year → year ≤ 2100 →
    1 ≤ month → month ≤ 12 → 1 ≤ day → day ≤ 31 → ∀ algo : Algorithm,
    0 ≤ meanLongitude (tCentury year month day) algo ∧
      meanLongitude (tCentury year month day) algo < 360 := by
  intro year month day h1 h2 h3 h4 h5 h6 algo
  obtain ⟨hb1, hb2⟩ := jdInt_bounds h1 h2 h3 h4 h5 h6
  rw [tCentury_eq]
  set k : ℤ := jdInt year month day - 2451545 with hk
  cases algo with
  | NOAA =>
      refine ⟨normDeg360_nonneg _, ?_⟩
      rcases lt_or_eq_of_le (normDeg360_le
        (280.46646 + ((k : ℝ) / 36525) * (36000.76983 + ((k : ℝ) / 36525) * 0.0003032)))
        with h | h
      · exact h
      · exfalso
        obtain ⟨n, hn⟩ := normDeg360_eq_end _ h
        exact noaa_ne_mult k n hn
  | USNO =>
      refine ⟨normDeg360_nonneg _, ?_⟩
      rcases lt_or_eq_of_le (normDeg360_le (280.460 + 36000.771 * ((k : ℝ) / 36525)))
        with h | h
      · exact h
      · exfalso
        obtain ⟨n, hn⟩ := normDeg360_eq_end _ h
        exact usno_ne_mult k n hb1 hb2 hn
  | LASKAR =>
      refine ⟨normDeg360_nonneg _, ?_⟩
      rcases lt_or_eq_of_le (normDeg360_le
        (280.4664567 + 36000.76982779 * ((k : ℝ) / 36525) +
          0.03032028 * ((k : ℝ) / 36525) ^ 2 + ((k : ℝ) / 36525) ^ 3 / 49931 -
          ((k : ℝ) / 36525) ^ 4 / 15300 - ((k : ℝ) / 36525) ^ 5 / 2e6))
        with h | h
      · exact h
      · exfalso
        obtain ⟨n, hn⟩ := normDeg360_eq_end _ h
        exact laskar_ne_mult k n hb1 hb2 hn

/-- Claim C8, witness: all three variants at 2000-01-01 (Julian century 0). -/
theorem C8_witness :
    (0 ≤ meanLongitude (tCentury 2000 1 1) Algorithm.NOAA ∧
      meanLongitude (tCentury 2000 1 1) Algorithm.NOAA < 360) ∧
    (0 ≤ meanLongitude (tCentury 2000 1 1) Algorithm.USNO ∧
      meanLongitude (tCentury 2000 1 1) Algorithm.USNO < 360) ∧
    (0 ≤ meanLongitude (tCentury 2000 1 1) Algorithm.LASKAR ∧
      meanLongitude (tCentury 2000 1 1) Algorithm.LASKAR < 360) := by
  refine ⟨?_, ?_, ?_⟩ <;>
    exact C8_main 2000 1 1 (by norm_num) (by norm_num) (by norm_num) (by norm_num)
      (by norm_num) (by norm_num) _

/-!  Rigorous numeric bounds at the query date 2000-01-01 (Julian century
t = 0), used to exhibit the polar saturation behaviour of the pipeline for
claims C5, C6 and C9.  All transcendental values are boxed with the Taylor
remainder bounds sin_bound/cos_bound and the rational bounds on pi. -/

theorem normDeg360_id {x : ℝ} (h0 : 0 ≤ x) (h1 : x ≤ 360) : normDeg360 x = x := by
  unfold normDeg360
  rw [if_neg (not_lt.mpr h1), if_neg (not_lt.mpr h0)]

theorem jdInt_2000 : jdInt 2000 1 1 = 2451545 := by decide

theorem tCentury_2000 : tCentury 2000 1 1 = 0 := by
  rw [tCentury_eq, jdInt_2000]
  norm_num

theorem meanLongitude_zero : meanLongitude 0 = 280.46646 := by
  show normDeg360 _ = _
  rw [show (280.46646:ℝ) + 0 * (36000.76983 + 0 * 0.0003032) = 280.46646 by ring]
  exact normDeg360_id (by norm_num) (by norm_num)

theorem meanAnomaly_zero : meanAnomaly 0 = 357.52911 := by
  show (357.52911:ℝ) + 0 * (35999.05029 - 0 * 0.0001536) = _
  ring

theorem eccentricity_zero : eccentricity 0 = 0.016708634 := by
  unfold eccentricity
  ring

theorem obliquity_zero : obliquityOfEcliptic 0 = 84381448 / 3600000 := by
  show ((23 + (26 + 21.448 / 60) / 60) * 3600 - 4681.5 * (0 / 100) -
      5.9 * (0 / 100) ^ 2 + 1813 * (0 / 100) ^ 3) / 3600 = _
  norm_num

theorem abs_sin_le_one (x : ℝ) : |sin x| ≤ 1 :=
  abs_le.mpr ⟨neg_one_le_sin x, sin_le_one x⟩

theorem abs_cos_le_one (x : ℝ) : |cos x| ≤ 1 :=
  abs_le.mpr ⟨neg_one_le_cos x, cos_le_one x⟩

/-- Taylor box for the sine of pi/180 (one degree). -/
theorem sin_deg1_bounds : 0.0174523 ≤ sin (π / 180) ∧ sin (π / 180) ≤ 0.0174533 := by
  have hp1 : (3.141592:ℝ) < π := Real.pi_gt_d6
  have hp2 : π < 3.141593 := Real.pi_lt_d6
  have hx1 : (0.01745328:ℝ) ≤ π / 180 := by linarith
  have hx2 : π / 180 ≤ 0.01745330 := by linarith
  have hxpos : (0:ℝ) < π / 180 := by linarith
  have habs : |π / 180| ≤ 1 := by
    rw [abs_of_pos hxpos]
    linarith
  have hb := Real.sin_bound habs
  rw [abs_of_pos hxpos, abs_le] at hb
  have hx3 : (π / 180) ^ 3 ≤ 0.01745330 ^ 3 := pow_le_pow_left (le_of_lt hxpos) hx2 3
  have hx3l : (0:ℝ) ≤ (π / 180) ^ 3 := by positivity
  have hx4 : (π / 180) ^ 4 ≤ 0.01745330 ^ 4 := pow_le_pow_left (le_of_lt hxpos) hx2 4
  constructor
  · nlinarith [hb.1]
  · have := Real.sin_lt hxpos
    linarith

/-- Taylor box for the cosine of one degree. -/
theorem cos_deg1_bounds : 0.999847 ≤ cos (π / 180) ∧ cos (π / 180) ≤ 1 := by
  have hp1 : (3.141592:ℝ) < π := Real.pi_gt_d6
  have hp2 : π < 3.141593 := Real.pi_lt_d6
  have hxpos : (0:ℝ) < π / 180 := by linarith
  have hx2 : π / 180 ≤ 0.01745330 := by linarith
  have habs : |π / 180| ≤ 1 := by
    rw [abs_of_pos hxpos]
    linarith
  have hb := Real.cos_bound habs
  rw [abs_of_pos hxpos, abs_le] at hb
  have hx2sq : (π / 180) ^ 2 ≤ 0.01745330 ^ 2 := pow_le_pow_left (le_of_lt hxpos) hx2 2
  have hx4 : (π / 180) ^ 4 ≤ 0.01745330 ^ 4 := pow_le_pow_left (le_of_lt hxpos) hx2 4
  exact ⟨by nlinarith [hb.1], cos_le_one _⟩

/-- Taylor box for the sine of 0.833 degrees (the standard sunset dip). -/
theorem sin_dip_bounds :
    0.0145380 ≤ sin (0.833 * (π / 180)) ∧ sin (0.833 * (π / 180)) ≤ 0.0145388 := by
  have hp1 : (3.141592:ℝ) < π := Real.pi_gt_d6
  have hp2 : π < 3.141593 := Real.pi_lt_d6
  have hx1 : (0.0145385:ℝ) ≤ 0.833 * (π / 180) := by linarith
  have hx2 : (0.833:ℝ) * (π / 180) ≤ 0.0145386 := by linarith
  have hxpos : (0:ℝ) < 0.833 * (π / 180) := by linarith
  have habs : |0.833 * (π / 180)| ≤ 1 := by
    rw [abs_of_pos hxpos]
    linarith
  have hb := Real.sin_bound habs
  rw [abs_of_pos hxpos, abs_le] at hb
  have hx3 : (0.833 * (π / 180)) ^ 3 ≤ 0.0145386 ^ 3 := pow_le_pow_left (le_of_lt hxpos) hx2 3
  have hx4 : (0.833 * (π / 180)) ^ 4 ≤ 0.0145386 ^ 4 := pow_le_pow_left (le_of_lt hxpos) hx2 4
  constructor
  · nlinarith [hb.1]
  · have := Real.sin_lt hxpos
    linarith

/-- Taylor box for the sine of the obliquity at t = 0. -/
theorem sin_eps_bounds :
    0.3962 ≤ sin (obliquityOfEcliptic 0 * kDeg2Rad) ∧
      sin (obliquityOfEcliptic 0 * kDeg2Rad) ≤ 0.3992 := by
  rw [obliquity_zero]
  unfold kDeg2Rad
  have hp1 : (3.141592:ℝ) < π := Real.pi_gt_d6
  have hp2 : π < 3.141593 := Real.pi_lt_d6
  set x : ℝ := (84381448 / 3600000 : ℝ) * (π / 180) with hxdef
  have hx1 : (0.40909271:ℝ) ≤ x := by
    rw [hxdef]
    nlinarith
  have hx2 : x ≤ 0.40909285 := by
    rw [hxdef]
    nlinarith
  have hxpos : (0:ℝ) < x := by linarith
  have habs : |x| ≤ 1 := by
    rw [abs_of_pos hxpos]
    linarith
  have hb := Real.sin_bound habs
  rw [abs_of_pos hxpos, abs_le] at hb
  have hx3u : x ^ 3 ≤ 0.40909285 ^ 3 := pow_le_pow_left (le_of_lt hxpos) hx2 3
  have hx3l : (0.40909271:ℝ) ^ 3 ≤ x ^ 3 := pow_le_pow_left (by norm_num) hx1 3
  have hx4 : x ^ 4 ≤ 0.40909285 ^ 4 := pow_le_pow_left (le_of_lt hxpos) hx2 4
  constructor
  · nlinarith [hb.1]
  · nlinarith [hb.2]

/-- The square of the tangent of half the obliquity (the y of the equation
of time) lies in [0, 0.05]. -/
theorem y_eot_bounds :
    0 ≤ tan (obliquityOfEcliptic 0 * kDeg2Rad / 2) ^ 2 ∧
      tan (obliquityOfEcliptic 0 * kDeg2Rad / 2) ^ 2 ≤ 0.05 := by
  refine ⟨sq_nonneg _, ?_⟩
  rw [obliquity_zero]
  unfold kDeg2Rad
  have hp1 : (3.141592:ℝ) < π := Real.pi_gt_d6
  have hp2 : π < 3.141593 := Real.pi_lt_d6
  set x : ℝ := (84381448 / 3600000 : ℝ) * (π / 180) / 2 with hxdef
  have hx1 : (0.20454635:ℝ) ≤ x := by
    rw [hxdef]
    nlinarith
  have hx2 : x ≤ 0.20454643 := by
    rw [hxdef]
    nlinarith
  have hxpos : (0:ℝ) < x := by linarith
  have habs : |x| ≤ 1 := by
    rw [abs_of_pos hxpos]
    linarith
  have hsin : sin x ≤ 0.20454643 := le_of_lt (lt_of_lt_of_le (Real.sin_lt hxpos) hx2)
  have hb := Real.cos_bound habs
  rw [abs_of_pos hxpos, abs_le] at hb
  have hx2sq : x ^ 2 ≤ 0.20454643 ^ 2 := pow_le_pow_left (le_of_lt hxpos) hx2 2
  have hx4 : x ^ 4 ≤ 0.20454643 ^ 4 := pow_le_pow_left (le_of_lt hxpos) hx2 4
  have hcos : (0.97898:ℝ) ≤ cos x := by nlinarith [hb.1]
  have hcpos : (0:ℝ) < cos x := by linarith
  have hsnn : 0 ≤ sin x := by
    apply sin_nonneg_of_nonneg_of_le_pi (le_of_lt hxpos)
    linarith
  rw [Real.tan_eq_sin_div_cos]
  rw [div_pow, div_le_iff (by positivity)]
  nlinarith [hsnn, hsin, hcos, hcpos, sq_nonneg (sin x), sq_nonneg (cos x)]

/-- Cosine box on the interval [0.148, 0.217] used for the apparent
longitude at t = 0. -/
theorem cos_mid_bounds {x : ℝ} (h1 : 0.148 ≤ x) (h2 : x ≤ 0.217) :
    0.976340 ≤ cos x ∧ cos x ≤ 0.989164 := by
  have hxpos : (0:ℝ) < x := by linarith
  have habs : |x| ≤ 1 := by
    rw [abs_of_pos hxpos]
    linarith
  have hb := Real.cos_bound habs
  rw [abs_of_pos hxpos, abs_le] at hb
  have hx2u : x ^ 2 ≤ 0.217 ^ 2 := pow_le_pow_left (le_of_lt hxpos) h2 2
  have hx2l : (0.148:ℝ) ^ 2 ≤ x ^ 2 := pow_le_pow_left (by norm_num) h1 2
  have hx4 : x ^ 4 ≤ 0.217 ^ 4 := pow_le_pow_left (le_of_lt hxpos) h2 4
  constructor
  · nlinarith [hb.1]
  · nlinarith [hb.2]

/-- The equation of center is bounded by the sum of its coefficients at
t = 0 (the three sine factors are at most one in absolute value). -/
theorem abs_equationOfCenter_zero (M : ℝ) : |equationOfCenter 0 M| ≤ 1.934884 := by
  show |(1.914602 - 0.004817 * 0 - 0.000014 * 0 ^ 2) * sin (M * kDeg2Rad) +
      (0.019993 - 0.000101 * 0) * sin (2 * (M * kDeg2Rad)) +
      0.000289 * sin (3 * (M * kDeg2Rad))| ≤ 1.934884
  have h1 := abs_sin_le_one (M * kDeg2Rad)
  have h2 := abs_sin_le_one (2 * (M * kDeg2Rad))
  have h3 := abs_sin_le_one (3 * (M * kDeg2Rad))
  rw [abs_le] at h1 h2 h3
  rw [abs_le]
  constructor <;> nlinarith

/-- The nutation in longitude is bounded by the sum of its coefficients. -/
theorem abs_nutation_le (Omega JCE X1 : ℝ) : |nutationInLongitude Omega JCE X1| ≤ 0.00527 := by
  show |-17.20 / 3600 * sin (Omega * kDeg2Rad) + -1.32 / 3600 * sin (2 * X1) +
      -0.23 / 3600 * sin (2 * (Omega * kDeg2Rad)) +
      0.21 / 3600 * sin (2 * (Omega * kDeg2Rad))| ≤ 0.00527
  have h1 := abs_sin_le_one (Omega * kDeg2Rad)
  have h2 := abs_sin_le_one (2 * X1)
  have h3 := abs_sin_le_one (2 * (Omega * kDeg2Rad))
  rw [abs_le] at h1 h2 h3
  rw [abs_le]
  constructor <;> nlinarith

/-- Apparent-longitude box at t = 0: lambda = 280.46646 + C + nutation. -/
theorem lambda_zero_bounds : 278.5263 ≤ lambdaOf 0 ∧ lambdaOf 0 ≤ 282.4067 := by
  unfold lambdaOf
  rw [meanLongitude_zero]
  have hc := abs_equationOfCenter_zero (meanAnomaly 0)
  have hn := abs_nutation_le (longitudeAscendingNode 0) 0 280.46646
  rw [abs_le] at hc hn
  constructor <;> linarith

/-- Sine box for the apparent longitude at t = 0, via
sin x = -cos(x - 3 pi/2) and the cosine box on [0.148, 0.217]. -/
theorem sin_lambda_bounds :
    -0.989164 ≤ sin (lambdaOf 0 * kDeg2Rad) ∧
      sin (lambdaOf 0 * kDeg2Rad) ≤ -0.976340 := by
  have hp1 : (3.141592:ℝ) < π := Real.pi_gt_d6
  have hp2 : π < 3.141593 := Real.pi_lt_d6
  obtain ⟨hl1, hl2⟩ := lambda_zero_bounds
  have hid : sin (lambdaOf 0 * kDeg2Rad) = -cos ((lambdaOf 0 - 270) * (π / 180)) := by
    have h1 : (lambdaOf 0 - 270) * (π / 180) = lambdaOf 0 * kDeg2Rad + π / 2 - 2 * π := by
      unfold kDeg2Rad
      ring
    rw [h1, Real.cos_sub_two_pi, Real.cos_add_pi_div_two]
    ring
  have hu1 : (0.148:ℝ) ≤ (lambdaOf 0 - 270) * (π / 180) := by nlinarith
  have hu2 : (lambdaOf 0 - 270) * (π / 180) ≤ 0.217 := by nlinarith
  obtain ⟨hc1, hc2⟩ := cos_mid_bounds hu1 hu2
  rw [hid]
  constructor <;> linarith

theorem p0_bounds : -0.39488 ≤ p0 ∧ p0 ≤ -0.38682 := by
  unfold p0
  obtain ⟨he1, he2⟩ := sin_eps_bounds
  obtain ⟨hl1, hl2⟩ := sin_lambda_bounds
  constructor <;> nlinarith

theorem sqrt_one_sub_p0_bounds :
    0.91873 ≤ Real.sqrt (1 - p0 ^ 2) ∧ Real.sqrt (1 - p0 ^ 2) ≤ 0.92216 := by
  obtain ⟨hp1, hp2⟩ := p0_bounds
  have hq1 : (0:ℝ) ≤ (p0 + 0.39488) * (-(p0 + 0.38682)) :=
    mul_nonneg (by linarith) (by linarith)
  have hq2 : (0:ℝ) ≤ (-(p0 - 0.38682)) * (-(p0 + 0.38682)) :=
    mul_nonneg (by linarith) (by linarith)
  have h1 : (0.8440696:ℝ) ≤ 1 - p0 ^ 2 := by nlinarith
  have h2 : 1 - p0 ^ 2 ≤ 0.850371 := by nlinarith
  have h0 : (0:ℝ) ≤ 1 - p0 ^ 2 := by linarith
  have hs := Real.sq_sqrt h0
  have hnn := Real.sqrt_nonneg (1 - p0 ^ 2)
  constructor <;> nlinarith

theorem kRad2Deg_mul_kDeg2Rad : kRad2Deg * kDeg2Rad = 1 := by
  unfold kRad2Deg kDeg2Rad
  have : π ≠ 0 := Real.pi_ne_zero
  field_simp

/-- The declination of t = 0, converted back to radians inside the
hour-angle solver, is exactly arcsin p0. -/
theorem deltaOf_zero_rad : deltaOf 0 * kDeg2Rad = arcsin p0 := by
  unfold deltaOf
  rw [show arcsin (sin (obliquityOfEcliptic 0 * kDeg2Rad) * sin (lambdaOf 0 * kDeg2Rad)) *
      kRad2Deg * kDeg2Rad =
      arcsin p0 * (kRad2Deg * kDeg2Rad) by rw [p0]; ring]
  rw [kRad2Deg_mul_kDeg2Rad, mul_one]

theorem sin_deltaOf_zero : sin (deltaOf 0 * kDeg2Rad) = p0 := by
  rw [deltaOf_zero_rad]
  obtain ⟨h1, h2⟩ := p0_bounds
  exact Real.sin_arcsin (by linarith) (by linarith)

theorem cos_deltaOf_zero : cos (deltaOf 0 * kDeg2Rad) = Real.sqrt (1 - p0 ^ 2) := by
  rw [deltaOf_zero_rad, Real.cos_arcsin]

theorem getZenith_alt_zero (e nu : ℝ) : getZenith e nu 0 = 90.833 := by
  show (90:ℝ) - (if (0:ℝ) < 0 then -0.833 + -2.076 * Real.sqrt 0 / 60 else -0.833) = 90.833
  rw [if_neg (by norm_num)]
  norm_num

theorem getZenith_alt_e6 (e nu : ℝ) : getZenith e nu 1000000 = 125.433 := by
  show (90:ℝ) - (if (0:ℝ) < 1000000 then -0.833 + -2.076 * Real.sqrt 1000000 / 60
    else -0.833) = 125.433
  rw [if_pos (by norm_num)]
  rw [show (1000000:ℝ) = 1000 ^ 2 by norm_num, Real.sqrt_sq (by norm_num : (0:ℝ) ≤ 1000)]
  norm_num

/-- The inlined equation of time at t = 0 with the eccentricity constant
substituted. -/
theorem eotOf_zero_eq : eotOf 0 =
    (tan (obliquityOfEcliptic 0 * kDeg2Rad / 2) ^ 2 *
        sin (2 * (meanLongitude 0 * kDeg2Rad)) -
      2 * 0.016708634 * sin (meanAnomaly 0 * kDeg2Rad) +
      4 * 0.016708634 * tan (obliquityOfEcliptic 0 * kDeg2Rad / 2) ^ 2 *
        sin (meanAnomaly 0 * kDeg2Rad) * cos (2 * (meanLongitude 0 * kDeg2Rad)) -
      0.5 * tan (obliquityOfEcliptic 0 * kDeg2Rad / 2) ^ 2 *
        tan (obliquityOfEcliptic 0 * kDeg2Rad / 2) ^ 2 *
        sin (4 * (meanLongitude 0 * kDeg2Rad)) -
      1.25 * 0.016708634 * 0.016708634 * sin (2 * (meanAnomaly 0 * kDeg2Rad))) *
      kRad2Deg / 15 := by
  unfold eotOf
  rw [eccentricity_zero]

/-- The conversion factor kRad2Deg = 180/pi, boxed. -/
theorem kRad2Deg_bounds : 57.29577 ≤ kRad2Deg ∧ kRad2Deg ≤ 57.29580 := by
  have hp1 : (3.141592:ℝ) < π := Real.pi_gt_d6
  have hp2 : π < 3.141593 := Real.pi_lt_d6
  have hpos : (0:ℝ) < π := Real.pi_pos
  have h180 : kRad2Deg * π = 180 := by
    rw [kRad2Deg_eq]
    field_simp
  constructor <;> nlinarith

set_option maxHeartbeats 2000000 in
/-- The equation of time of 2000-01-01 is below 20.3 minutes in magnitude
(coarse bound: every sine factor bounded by one, y at most 0.05). -/
theorem eot_zero_bounds : -0.338 ≤ eotOf 0 ∧ eotOf 0 ≤ 0.338 := by
  rw [eotOf_zero_eq]
  obtain ⟨hy0, hy1⟩ := y_eot_bounds
  obtain ⟨hk1, hk2⟩ := kRad2Deg_bounds
  set y := tan (obliquityOfEcliptic 0 * kDeg2Rad / 2) ^ 2 with hy
  set s1 := sin (2 * (meanLongitude 0 * kDeg2Rad)) with hs1
  set s2 := sin (meanAnomaly 0 * kDeg2Rad) with hs2
  set c2 := cos (2 * (meanLongitude 0 * kDeg2Rad)) with hc2
  set s3 := sin (4 * (meanLongitude 0 * kDeg2Rad)) with hs3
  set s4 := sin (2 * (meanAnomaly 0 * kDeg2Rad)) with hs4
  have hb1 : -1 ≤ s1 ∧ s1 ≤ 1 := ⟨neg_one_le_sin _, sin_le_one _⟩
  have hb2 : -1 ≤ s2 ∧ s2 ≤ 1 := ⟨neg_one_le_sin _, sin_le_one _⟩
  have hb3 : -1 ≤ c2 ∧ c2 ≤ 1 := ⟨neg_one_le_cos _, cos_le_one _⟩
  have hb4 : -1 ≤ s3 ∧ s3 ≤ 1 := ⟨neg_one_le_sin _, sin_le_one _⟩
  have hb5 : -1 ≤ s4 ∧ s4 ≤ 1 := ⟨neg_one_le_sin _, sin_le_one _⟩
  have ht1 : -0.05 ≤ y * s1 ∧ y * s1 ≤ 0.05 := by
    constructor <;> nlinarith [hb1.1, hb1.2, hy0, hy1]
  have hq : -1 ≤ s2 * c2 ∧ s2 * c2 ≤ 1 := by
    constructor <;> nlinarith [hb2.1, hb2.2, hb3.1, hb3.2]
  have ht3 : -0.05 ≤ y * (s2 * c2) ∧ y * (s2 * c2) ≤ 0.05 := by
    constructor <;> nlinarith [hq.1, hq.2, hy0, hy1]
  have ht4 : 0 ≤ y * y ∧ y * y ≤ 0.0025 := by
    constructor <;> nlinarith [hy0, hy1]
  have ht4s : -0.0025 ≤ y * y * s3 ∧ y * y * s3 ≤ 0.0025 := by
    constructor <;> nlinarith [hb4.1, hb4.2, ht4.1, ht4.2]
  set E := y * s1 - 2 * 0.016708634 * s2 + 4 * 0.016708634 * y * s2 * c2 -
    0.5 * (y * y) * s3 - 1.25 * 0.016708634 * 0.016708634 * s4 with hE
  have hE1 : -0.0884 ≤ E ∧ E ≤ 0.0884 := by
    rw [hE]
    have h4e : (4:ℝ) * 0.016708634 * y * s2 * c2 = 4 * 0.016708634 * (y * (s2 * c2)) := by
      ring
    rw [h4e]
    constructor <;> nlinarith [ht1.1, ht1.2, hb2.1, hb2.2, ht3.1, ht3.2,
      ht4s.1, ht4s.2, hb5.1, hb5.2]
  have hkpos : (0:ℝ) ≤ kRad2Deg := by linarith
  have hEk1 : E * kRad2Deg ≤ 0.0884 * 57.29580 := by
    nlinarith [hE1.1, hE1.2, hk1, hk2]
  have hEk2 : -(0.0884 * 57.29580) ≤ E * kRad2Deg := by
    nlinarith [hE1.1, hE1.2, hk1, hk2]
  have hgoal : (y * s1 - 2 * 0.016708634 * s2 + 4 * 0.016708634 * y * s2 * c2 -
      0.5 * y * y * s3 - 1.25 * 0.016708634 * 0.016708634 * s4) * kRad2Deg / 15 =
      E * kRad2Deg / 15 := by
    rw [hE]
    ring
  rw [hgoal]
  constructor <;> nlinarith [hEk1, hEk2]

/-- Taylor box for the cosine of 54.567 degrees (the extra dip at one
million meters of altitude). -/
theorem cos_v_bounds :
    0.503643 ≤ cos (54.567 * (π / 180)) ∧ cos (54.567 * (π / 180)) ≤ 0.589341 := by
  have hp1 : (3.141592:ℝ) < π := Real.pi_gt_d6
  have hp2 : π < 3.141593 := Real.pi_lt_d6
  have hx1 : (0.9523736:ℝ) ≤ 54.567 * (π / 180) := by linarith
  have hx2 : (54.567:ℝ) * (π / 180) ≤ 0.9523740 := by linarith
  have hxpos : (0:ℝ) < 54.567 * (π / 180) := by linarith
  have habs : |54.567 * (π / 180)| ≤ 1 := by
    rw [abs_of_pos hxpos]
    linarith
  have hb := Real.cos_bound habs
  rw [abs_of_pos hxpos, abs_le] at hb
  have hx2u : (54.567 * (π / 180)) ^ 2 ≤ 0.9523740 ^ 2 :=
    pow_le_pow_left (le_of_lt hxpos) hx2 2
  have hx2l : (0.9523736:ℝ) ^ 2 ≤ (54.567 * (π / 180)) ^ 2 :=
    pow_le_pow_left (by norm_num) hx1 2
  have hx4 : (54.567 * (π / 180)) ^ 4 ≤ 0.9523740 ^ 4 :=
    pow_le_pow_left (le_of_lt hxpos) hx2 4
  constructor
  · nlinarith [hb.1]
  · nlinarith [hb.2]

/-- The pipeline cosine of the hour angle at t = 0, zenith 90.833,
latitude -89 (south polar day on 2000-01-01). -/
theorem cosHof_neg89_eq : cosHof 90.833 (-89) (deltaOf 0) =
    (-sin (0.833 * (π / 180)) + cos (π / 180) * p0) /
      (sin (π / 180) * Real.sqrt (1 - p0 ^ 2)) := by
  unfold cosHof
  rw [show (90.833:ℝ) * kDeg2Rad = 0.833 * (π / 180) + π / 2 by unfold kDeg2Rad; ring]
  rw [Real.cos_add_pi_div_two]
  rw [show ((-89:ℝ)) * kDeg2Rad = -(π / 2 - π / 180) by unfold kDeg2Rad; ring]
  rw [Real.sin_neg, Real.cos_neg, Real.sin_pi_div_two_sub, Real.cos_pi_div_two_sub]
  rw [sin_deltaOf_zero, cos_deltaOf_zero]
  ring_nf

theorem cosHof_pos89_a0_eq : cosHof 90.833 89 (deltaOf 0) =
    (-sin (0.833 * (π / 180)) - cos (π / 180) * p0) /
      (sin (π / 180) * Real.sqrt (1 - p0 ^ 2)) := by
  unfold cosHof
  rw [show (90.833:ℝ) * kDeg2Rad = 0.833 * (π / 180) + π / 2 by unfold kDeg2Rad; ring]
  rw [Real.cos_add_pi_div_two]
  rw [show ((89:ℝ)) * kDeg2Rad = π / 2 - π / 180 by unfold kDeg2Rad; ring]
  rw [Real.sin_pi_div_two_sub, Real.cos_pi_div_two_sub]
  rw [sin_deltaOf_zero, cos_deltaOf_zero]

theorem cosHof_pos89_e6_eq : cosHof 125.433 89 (deltaOf 0) =
    (-cos (54.567 * (π / 180)) - cos (π / 180) * p0) /
      (sin (π / 180) * Real.sqrt (1 - p0 ^ 2)) := by
  unfold cosHof
  rw [show (125.433:ℝ) * kDeg2Rad = π - 54.567 * (π / 180) by unfold kDeg2Rad; ring]
  rw [Real.cos_pi_sub]
  rw [show ((89:ℝ)) * kDeg2Rad = π / 2 - π / 180 by unfold kDeg2Rad; ring]
  rw [Real.sin_pi_div_two_sub, Real.cos_pi_div_two_sub]
  rw [sin_deltaOf_zero, cos_deltaOf_zero]

/-- The common positive denominator of the three cosine expressions. -/
theorem den_pos : 0 < sin (π / 180) * Real.sqrt (1 - p0 ^ 2) := by
  obtain ⟨hc1, hc2⟩ := sin_deg1_bounds
  obtain ⟨he1, he2⟩ := sqrt_one_sub_p0_bounds
  nlinarith

theorem den_le : sin (π / 180) * Real.sqrt (1 - p0 ^ 2) ≤ 0.0174533 * 0.92216 := by
  obtain ⟨hc1, hc2⟩ := sin_deg1_bounds
  obtain ⟨he1, he2⟩ := sqrt_one_sub_p0_bounds
  have h0 : (0:ℝ) ≤ Real.sqrt (1 - p0 ^ 2) := Real.sqrt_nonneg _
  nlinarith

/-- The product cos(1 degree) * p0 boxed. -/
theorem cos1_p0_bounds : cos (π / 180) * p0 ≤ -0.38676 ∧ -0.39488 ≤ cos (π / 180) * p0 := by
  obtain ⟨hb1, hb2⟩ := cos_deg1_bounds
  obtain ⟨hd1, hd2⟩ := p0_bounds
  constructor
  · nlinarith
  · nlinarith

/-- Sunset hour-angle saturation at latitude -89 on 2000-01-01: the sun
never reaches the sunset zenith circle from below (polar day), cosH < -1. -/
theorem cosH_neg89_lt : cosHof 90.833 (-89) (deltaOf 0) < -1 := by
  rw [cosHof_neg89_eq]
  obtain ⟨ha1, ha2⟩ := sin_dip_bounds
  obtain ⟨hq1, hq2⟩ := cos1_p0_bounds
  have hden := den_pos
  have hle := den_le
  rw [div_lt_iff hden]
  nlinarith

/-- At latitude +89 on 2000-01-01 with no altitude correction the sun never
reaches the sunset circle from above (polar night), cosH > 1. -/
theorem cosH_pos89_a0_gt : 1 < cosHof 90.833 89 (deltaOf 0) := by
  rw [cosHof_pos89_a0_eq]
  obtain ⟨ha1, ha2⟩ := sin_dip_bounds
  obtain ⟨hq1, hq2⟩ := cos1_p0_bounds
  have hden := den_pos
  have hle := den_le
  rw [lt_div_iff hden]
  nlinarith

/-- At latitude +89 with one million meters of altitude the zenith circle
is lowered to 125.433 degrees and the saturation flips: cosH < -1. -/
theorem cosH_pos89_e6_lt : cosHof 125.433 89 (deltaOf 0) < -1 := by
  rw [cosHof_pos89_e6_eq]
  obtain ⟨hv1, hv2⟩ := cos_v_bounds
  obtain ⟨hq1, hq2⟩ := cos1_p0_bounds
  have hden := den_pos
  have hle := den_le
  rw [div_lt_iff hden]
  nlinarith

/-!  Order properties of the hour-angle solver and the zenith model. -/

theorem hourAngle_nonneg (z phi delta : ℝ) : 0 ≤ hourAngle z phi delta := by
  rw [hourAngle_eq]
  split_ifs
  · norm_num
  · norm_num
  · rw [kRad2Deg_eq]
    have h1 := Real.arccos_nonneg (cosHof z phi delta)
    have h2 := Real.pi_pos
    positivity

theorem hourAngle_le_180 (z phi delta : ℝ) : hourAngle z phi delta ≤ 180 := by
  rw [hourAngle_eq]
  split_ifs
  · norm_num
  · norm_num
  · rw [kRad2Deg_eq]
    have h1 := Real.arccos_le_pi (cosHof z phi delta)
    have h2 := Real.pi_pos
    calc arccos (cosHof z phi delta) * (180 / π) ≤ π * (180 / π) := by
          apply mul_le_mul_of_nonneg_right h1
          positivity
      _ = 180 := by field_simp

theorem arccos_antitone {a b : ℝ} (h : b ≤ a) : arccos a ≤ arccos b := by
  rw [Real.arccos_eq_pi_div_two_sub_arcsin, Real.arccos_eq_pi_div_two_sub_arcsin]
  have := Real.monotone_arcsin h
  linarith

/-- The clamped hour-angle map is antitone in the cosine of the hour angle:
a smaller cosH gives an event farther from noon, across all branches. -/
theorem hourAngle_anti {z1 z2 phi delta : ℝ}
    (h : cosHof z2 phi delta ≤ cosHof z1 phi delta) :
    hourAngle z1 phi delta ≤ hourAngle z2 phi delta := by
  have hn2 := hourAngle_nonneg z2 phi delta
  have hl1 := hourAngle_le_180 z1 phi delta
  by_cases ha : 1 < cosHof z1 phi delta
  · rw [hourAngle_of_gt ha]
    exact hn2
  by_cases hb : cosHof z1 phi delta < -1
  · rw [hourAngle_of_lt hb, hourAngle_of_lt (lt_of_le_of_lt h hb)]
  by_cases hc : cosHof z2 phi delta < -1
  · rw [hourAngle_of_lt hc]
    exact hl1
  push_neg at ha hb hc
  rw [hourAngle_of_mem hb ha, hourAngle_of_mem hc (le_trans h ha)]
  apply mul_le_mul_of_nonneg_right (arccos_antitone h)
  rw [kRad2Deg_eq]
  have := Real.pi_pos
  positivity

/-- The zenith model in closed form: the altitude branch of getZenith. -/
theorem getZenith_eq (e nu a : ℝ) :
    getZenith e nu a = if 0 < a then 90.833 + 2.076 * Real.sqrt a / 60 else 90.833 := by
  show (90:ℝ) - (if 0 < a then -0.833 + -2.076 * Real.sqrt a / 60 else -0.833) = _
  split_ifs
  · ring
  · ring

theorem getZenith_ge (e nu a : ℝ) : 90.833 ≤ getZenith e nu a := by
  rw [getZenith_eq]
  split_ifs
  · have := Real.sqrt_nonneg a
    nlinarith
  · norm_num

theorem getZenith_mono (e nu : ℝ) {a1 a2 : ℝ} (h : a1 ≤ a2) :
    getZenith e nu a1 ≤ getZenith e nu a2 := by
  rw [getZenith_eq, getZenith_eq]
  split_ifs with h1 h2 h3
  · have := Real.sqrt_le_sqrt h
    nlinarith
  · linarith
  · have := Real.sqrt_nonneg a2
    nlinarith
  · norm_num

/-- The cosine of the hour angle decreases when the zenith grows within
[0,180] degrees, for physical latitudes and declinations. -/
theorem cosHof_anti {z1 z2 phi delta : ℝ} (h0 : 0 ≤ z1) (h12 : z1 ≤ z2)
    (h2 : z2 ≤ 180) (hphi1 : -90 ≤ phi) (hphi2 : phi ≤ 90)
    (hd1 : -90 < delta) (hd2 : delta < 90) :
    cosHof z2 phi delta ≤ cosHof z1 phi delta := by
  unfold cosHof
  have hpi := Real.pi_pos
  have hkpos : 0 < kDeg2Rad := by
    unfold kDeg2Rad
    positivity
  have hcos : cos (z2 * kDeg2Rad) ≤ cos (z1 * kDeg2Rad) := by
    apply Real.cos_le_cos_of_nonneg_of_le_pi
    · exact mul_nonneg h0 hkpos.le
    · unfold kDeg2Rad
      nlinarith
    · exact mul_le_mul_of_nonneg_right h12 hkpos.le
  have hb1 : 0 ≤ cos (phi * kDeg2Rad) := by
    apply Real.cos_nonneg_of_mem_Icc
    constructor
    · unfold kDeg2Rad
      nlinarith
    · unfold kDeg2Rad
      nlinarith
  have hb2 : 0 < cos (delta * kDeg2Rad) := by
    apply Real.cos_pos_of_mem_Ioo
    constructor
    · unfold kDeg2Rad
      nlinarith
    · unfold kDeg2Rad
      nlinarith
  have hden : 0 ≤ cos (phi * kDeg2Rad) * cos (delta * kDeg2Rad) :=
    mul_nonneg hb1 hb2.le
  rcases eq_or_lt_of_le hden with hd0 | hdpos
  · rw [← hd0, div_zero, div_zero]
  · rw [div_le_div_iff_of_pos_right hdpos]
    linarith

/-- Claim C6, counterexample: on 2000-01-01 at latitude 89, longitude 0,
timezone -6, raising the observer altitude from 0 to one million meters
makes the returned sunrise time LARGER (it jumps from solar noon, the polar
saturation value, to noon + 12 wrapped into range), contradicting the
claimed monotone decrease of sunrise in altitude. -/
theorem C6_counterexample :
    (getSunrise 2000 1 1 89 0 (-6) 0).time <
      (getSunrise 2000 1 1 89 0 (-6) 1000000).time := by
  have hval : validateInputs 2000 1 1 89 0 (-6) := by
    unfold validateInputs
    push_neg
    norm_num
  rw [getSunrise_of_valid 0 hval, getSunrise_of_valid 1000000 hval]
  dsimp only
  rw [tCentury_2000]
  have hn2 : solarNoonOf 0 0 (-6) = 6 - eotOf 0 := by
    obtain ⟨he1, he2⟩ := eot_zero_bounds
    unfold solarNoonOf
    rw [show (12:ℝ) - 0 / 15 - eotOf 0 + ((-6:ℤ):ℝ) = 6 - eotOf 0 by push_cast; ring]
    exact norm24_eq_self (by linarith) (by linarith)
  have hha0 : haHoursOf 0 89 0 = 0 := by
    unfold haHoursOf
    rw [getZenith_alt_zero, hourAngle_of_gt cosH_pos89_a0_gt]
    norm_num
  have hha6 : haHoursOf 0 89 1000000 = 12 := by
    unfold haHoursOf
    rw [getZenith_alt_e6, hourAngle_of_lt cosH_pos89_e6_lt]
    norm_num
  obtain ⟨he1, he2⟩ := eot_zero_bounds
  rw [hha0, hha6, hn2]
  have hr0 : norm24 (6 - eotOf 0 - 0) = 6 - eotOf 0 := by
    rw [show (6:ℝ) - eotOf 0 - 0 = 6 - eotOf 0 by ring]
    exact norm24_eq_self (by linarith) (by linarith)
  have hr1 : norm24 (6 - eotOf 0 - 12) = 18 - eotOf 0 := by
    rw [show (6:ℝ) - eotOf 0 - 12 = -6 - eotOf 0 by ring]
    rw [norm24_eq_add (by linarith) (by linarith)]
    ring
  rw [hr0, hr1]
  linarith

/-- Claim C6, amended: for altitudes above zero the effective zenith is
90 + 0.833 + 2.076 sqrt(alt)/60 degrees, computed by getZenith independently
of its first two arguments (hence identically in the sunset and sunrise
pipelines, which pass the same altitude); and the hour angle produced by the
solver is monotonically nondecreasing in the altitude as long as the
corrected zenith stays within 180 degrees.  The returned clock times
themselves are not monotone in the altitude because of the [0,24)
normalization (see the counterexample). -/
theorem C6_main :
    (∀ e nu alt : ℝ, 0 < alt →
      getZenith e nu alt = 90 + 0.833 + 2.076 * Real.sqrt alt / 60) ∧
    (∀ e1 nu1 e2 nu2 alt : ℝ, getZenith e1 nu1 alt = getZenith e2 nu2 alt) ∧
    (∀ lat delta a1 a2 e nu : ℝ, 0 ≤ a1 → a1 ≤ a2 → getZenith e nu a2 ≤ 180 →
      -90 ≤ lat → lat ≤ 90 → -90 < delta → delta < 90 →
      hourAngle (getZenith e nu a1) lat delta ≤ hourAngle (getZenith e nu a2) lat delta) := by
  refine ⟨?_, ?_, ?_⟩
  · intro e nu alt h
    rw [getZenith_eq, if_pos h]
    ring
  · intro e1 nu1 e2 nu2 alt
    rw [getZenith_eq, getZenith_eq]
  · intro lat delta a1 a2 e nu h0 h12 h180 hl1 hl2 hd1 hd2
    apply hourAngle_anti
    apply cosHof_anti _ (getZenith_mono e nu h12) h180 hl1 hl2 hd1 hd2
    have := getZenith_ge e nu a1
    linarith

/-- Claim C6, witness: the zenith formula at one hundred meters and the
hour-angle monotonicity from sea level to one hundred meters at latitude 45,
declination 0. -/
theorem C6_witness :
    getZenith 0 0 100 = 90 + 0.833 + 2.076 * Real.sqrt 100 / 60 ∧
      hourAngle (getZenith 0 0 0) 45 0 ≤ hourAngle (getZenith 0 0 100) 45 0 := by
  have h100 : Real.sqrt (100:ℝ) = 10 := by
    rw [show (100:ℝ) = 10 ^ 2 by norm_num, Real.sqrt_sq (by norm_num : (0:ℝ) ≤ 10)]
  constructor
  · exact C6_main.1 0 0 100 (by norm_num)
  · apply C6_main.2.2 45 0 0 100 0 0 (by norm_num) (by norm_num)
    · rw [getZenith_eq, if_pos (by norm_num : (0:ℝ) < 100), h100]
      norm_num
    all_goals norm_num

/-- Claim C5, counterexample: on 2000-01-01 at latitude -89 (south polar
day), longitude 0, timezone +2, altitude 0, the hour angle saturates to 12
hours and the sunset normalization wraps: sunset - solarNoon = -12 while
solarNoon - sunrise = +12, so the claimed symmetry equation fails by a full
day. -/
theorem C5_counterexample :
    (getSunset 2000 1 1 (-89) 0 2 0).time - (getSunset 2000 1 1 (-89) 0 2 0).solarNoon = -12 ∧
    (getSunset 2000 1 1 (-89) 0 2 0).solarNoon - (getSunrise 2000 1 1 (-89) 0 2 0).time = 12 ∧
    (getSunset 2000 1 1 (-89) 0 2 0).time - (getSunset 2000 1 1 (-89) 0 2 0).solarNoon ≠
      (getSunset 2000 1 1 (-89) 0 2 0).solarNoon - (getSunrise 2000 1 1 (-89) 0 2 0).time := by
  have hval : validateInputs 2000 1 1 (-89) 0 2 := by
    unfold validateInputs
    push_neg
    norm_num
  rw [getSunset_of_valid 0 hval, getSunrise_of_valid 0 hval]
  dsimp only
  rw [tCentury_2000]
  obtain ⟨he1, he2⟩ := eot_zero_bounds
  have hn2 : solarNoonOf 0 0 2 = 14 - eotOf 0 := by
    unfold solarNoonOf
    rw [show (12:ℝ) - 0 / 15 - eotOf 0 + ((2:ℤ):ℝ) = 14 - eotOf 0 by push_cast; ring]
    exact norm24_eq_self (by linarith) (by linarith)
  have hha : haHoursOf 0 (-89) 0 = 12 := by
    unfold haHoursOf
    rw [getZenith_alt_zero, hourAngle_of_lt cosH_neg89_lt]
    norm_num
  rw [hn2, hha]
  have hsunset : norm24 (14 - eotOf 0 + 12) = 2 - eotOf 0 := by
    rw [show (14:ℝ) - eotOf 0 + 12 = 26 - eotOf 0 by ring]
    rw [norm24_eq_sub (by linarith) (by linarith)]
    ring
  have hsunrise : norm24 (14 - eotOf 0 - 12) = 2 - eotOf 0 := by
    rw [show (14:ℝ) - eotOf 0 - 12 = 2 - eotOf 0 by ring]
    exact norm24_eq_self (by linarith) (by linarith)
  rw [hsunset, hsunrise]
  refine ⟨by ring, by ring, ?_⟩
  intro hcon
  nlinarith [hcon]

/-- Claim C5, amended: with no altitude correction, getSunset computes
noon + HA and getSunrise noon - HA with one shared hour angle HA and one
shared solar noon, each then normalized into [0,24); consequently
(sunset - noon) - (noon - sunrise) is always an integer multiple of 24
hours, and the literal equality sunset - noon = noon - sunrise holds
exactly when no wrap occurs (it fails in the polar saturation case of the
counterexample). -/
theorem C5_main : ∀ (year month day : ℤ) (lat lon : ℝ) (tz : ℤ),
    validateInputs year month day lat lon tz →
      (getSunset year month day lat lon tz 0).time =
        norm24 ((getSunset year month day lat lon tz 0).solarNoon +
          haHoursOf (tCentury year month day) lat 0) ∧
      (getSunrise year month day lat lon tz 0).time =
        norm24 ((getSunset year month day lat lon tz 0).solarNoon -
          haHoursOf (tCentury year month day) lat 0) ∧
      (getSunrise year month day lat lon tz 0).solarNoon =
        (getSunset year month day lat lon tz 0).solarNoon ∧
      ∃ j : ℤ,
        ((getSunset year month day lat lon tz 0).time -
            (getSunset year month day lat lon tz 0).solarNoon) -
          ((getSunset year month day lat lon tz 0).solarNoon -
            (getSunrise year month day lat lon tz 0).time) = 24 * j := by
  intro year month day lat lon tz h
  rw [getSunset_of_valid 0 h, getSunrise_of_valid 0 h]
  dsimp only
  refine ⟨rfl, rfl, rfl, ?_⟩
  refine ⟨-(⌊(solarNoonOf (tCentury year month day) lon tz +
      haHoursOf (tCentury year month day) lat 0) / 24⌋ +
    ⌊(solarNoonOf (tCentury year month day) lon tz -
      haHoursOf (tCentury year month day) lat 0) / 24⌋), ?_⟩
  unfold norm24
  push_cast
  ring

/-- Claim C5, witness: the shared-decomposition form at 2000-06-15 on the
equator at longitude 0, UTC. -/
theorem C5_witness :
    (getSunset 2000 6 15 0 0 0 0).time =
      norm24 ((getSunset 2000 6 15 0 0 0 0).solarNoon + haHoursOf (tCentury 2000 6 15) 0 0) ∧
    (getSunrise 2000 6 15 0 0 0 0).time =
      norm24 ((getSunset 2000 6 15 0 0 0 0).solarNoon - haHoursOf (tCentury 2000 6 15) 0 0) ∧
    (getSunrise 2000 6 15 0 0 0 0).solarNoon = (getSunset 2000 6 15 0 0 0 0).solarNoon ∧
    ∃ j : ℤ,
      ((getSunset 2000 6 15 0 0 0 0).time - (getSunset 2000 6 15 0 0 0 0).solarNoon) -
        ((getSunset 2000 6 15 0 0 0 0).solarNoon - (getSunrise 2000 6 15 0 0 0 0).time) =
        24 * j :=
  C5_main 2000 6 15 0 0 0 (by unfold validateInputs; push_neg; norm_num)

/-- Claim C9: geometric non-occurrence is never signalled at the public
interface: on a valid input whose hour-angle equation has no solution,
getSunset still returns an ordinary in-range time: exactly the normalized
solar noon when cosH > 1, and solar noon + 12 hours wrapped into [0,24)
when cosH < -1; the sentinels 24.0 and -1.0 can only arise from validation
failure, never from non-occurrence. -/
theorem C9_main : ∀ (year month day : ℤ) (lat lon : ℝ) (tz : ℤ) (alt : ℝ),
    validateInputs year month day lat lon tz →
      (1 < cosHof_pipeline (tCentury year month day) lat alt →
        (getSunset year month day lat lon tz alt).time =
          (getSunset year month day lat lon tz alt).solarNoon) ∧
      (cosHof_pipeline (tCentury year month day) lat alt < -1 →
        (getSunset year month day lat lon tz alt).time =
          norm24 ((getSunset year month day lat lon tz alt).solarNoon + 12)) ∧
      (getSunset year month day lat lon tz alt).time ≠ 24 ∧
      (getSunrise year month day lat lon tz alt).time ≠ -1 := by
  intro year month day lat lon tz alt h
  rw [getSunset_of_valid alt h, getSunrise_of_valid alt h]
  dsimp only
  refine ⟨?_, ?_, ?_, ?_⟩
  · intro hgt
    have hha : haHoursOf (tCentury year month day) lat alt = 0 := by
      unfold haHoursOf
      rw [hourAngle_of_gt hgt]
      norm_num
    rw [hha, add_zero]
    exact norm24_eq_self (norm24_nonneg _) (norm24_lt _)
  · intro hlt
    have hha : haHoursOf (tCentury year month day) lat alt = 12 := by
      unfold haHoursOf
      rw [hourAngle_of_lt hlt]
      norm_num
    rw [hha]
  · exact ne_of_lt (norm24_lt _)
  · intro hcon
    have := norm24_nonneg (solarNoonOf (tCentury year month day) lon tz -
      haHoursOf (tCentury year month day) lat alt)
    rw [hcon] at this
    norm_num at this

/-- Claim C9, witness: both saturation branches on 2000-01-01: polar night
at latitude 89 (sunset = solar noon) and polar day at latitude -89
(sunset = noon + 12 wrapped). -/
theorem C9_witness :
    (getSunset 2000 1 1 89 0 (-6) 0).time = (getSunset 2000 1 1 89 0 (-6) 0).solarNoon ∧
    (getSunset 2000 1 1 (-89) 0 2 0).time =
      norm24 ((getSunset 2000 1 1 (-89) 0 2 0).solarNoon + 12) := by
  have hpipe0 : cosHof_pipeline 0 89 0 = cosHof 90.833 89 (deltaOf 0) := by
    unfold cosHof_pipeline
    rw [getZenith_alt_zero]
  have hpipe1 : cosHof_pipeline 0 (-89) 0 = cosHof 90.833 (-89) (deltaOf 0) := by
    unfold cosHof_pipeline
    rw [getZenith_alt_zero]
  constructor
  · apply (C9_main 2000 1 1 89 0 (-6) 0 (by unfold validateInputs; push_neg; norm_num)).1
    rw [tCentury_2000, hpipe0]
    exact cosH_pos89_a0_gt
  · apply (C9_main 2000 1 1 (-89) 0 2 0 (by unfold validateInputs; push_neg; norm_num)).2.1
    rw [tCentury_2000, hpipe1]
    exact cosH_neg89_lt

end

end SunsetCalc
